import Mathlib

/-!
Verification of the cpq-validator quote-audit core against its
natural-language specification.

The Python source is shallowly embedded: Python floats are modelled as
rationals (`ℚ`), Python `None` / absent data as `Option` or an explicit
`Value.none` constructor, and the dynamically-typed records that flow
between the extractor and the comparator as an inductive `Value` type over
association lists.  Library calls that live outside the repository
(difflib's `SequenceMatcher.ratio`, `datetime.strptime`, Python's float
`repr`) are parameters of the embedding, bundled in a `Prims` structure;
no theorem below depends on their behaviour.

Arithmetic on `ℚ` inside the embedded code is spelled with explicit
numerator/denominator constructions (`mkRat`) so that concrete runs of the
embedded functions reduce inside the kernel; each operation is proved
equal to the corresponding Mathlib operation below.
-/

/-! ## Kernel-reducible rational arithmetic -/

/-- Kernel-reducible addition on `ℚ`. -/
def qadd (a b : ℚ) : ℚ := mkRat (a.num * b.den + b.num * a.den) (a.den * b.den)

/-- Kernel-reducible subtraction on `ℚ`. -/
def qsub (a b : ℚ) : ℚ := mkRat (a.num * b.den - b.num * a.den) (a.den * b.den)

/-- Kernel-reducible multiplication on `ℚ`. -/
def qmul (a b : ℚ) : ℚ := mkRat (a.num * b.num) (a.den * b.den)

/-- Kernel-reducible division on `ℚ` (0 on a zero divisor, like `Rat.div`). -/
def qdiv (a b : ℚ) : ℚ := mkRat (a.num * Int.sign b.num * b.den) (a.den * b.num.natAbs)

/-- Kernel-reducible negation on `ℚ`. -/
def qneg (a : ℚ) : ℚ := mkRat (-a.num) a.den

/-- Kernel-reducible integer-to-rational coercion. -/
def intToQ (n : ℤ) : ℚ := mkRat n 1

theorem qden_ne_zero_q (a : ℚ) : ((a.den : ℚ)) ≠ 0 :=
  Nat.cast_ne_zero.2 a.den_nz

theorem qadd_eq (a b : ℚ) : qadd a b = a + b := by
  have ha := qden_ne_zero_q a
  have hb := qden_ne_zero_q b
  rw [qadd, Rat.mkRat_eq_div]
  conv_rhs => rw [← Rat.num_div_den a, ← Rat.num_div_den b]
  push_cast
  field_simp

theorem qsub_eq (a b : ℚ) : qsub a b = a - b := by
  have ha := qden_ne_zero_q a
  have hb := qden_ne_zero_q b
  rw [qsub, Rat.mkRat_eq_div]
  conv_rhs => rw [← Rat.num_div_den a, ← Rat.num_div_den b]
  push_cast
  field_simp
  ring

theorem qmul_eq (a b : ℚ) : qmul a b = a * b := by
  have ha := qden_ne_zero_q a
  have hb := qden_ne_zero_q b
  rw [qmul, Rat.mkRat_eq_div]
  conv_rhs => rw [← Rat.num_div_den a, ← Rat.num_div_den b]
  push_cast
  field_simp

theorem qneg_eq (a : ℚ) : qneg a = -a := by
  rw [qneg, Rat.mkRat_eq_div, Int.cast_neg, neg_div, Rat.num_div_den]

theorem intToQ_eq (n : ℤ) : intToQ n = (n : ℚ) := by
  rw [intToQ, Rat.mkRat_eq_div]
  norm_num

theorem sign_mul_self_intAux (n : ℤ) : n.sign * n = (n.natAbs : ℤ) := by
  rcases lt_trichotomy n 0 with h | h | h
  · rw [Int.sign_eq_neg_one_of_neg h]
    omega
  · subst h
    simp
  · rw [Int.sign_eq_one_of_pos h]
    omega

theorem qdiv_eq (a b : ℚ) : qdiv a b = a / b := by
  by_cases hb : b = 0
  · subst hb
    rw [qdiv]
    norm_num
  · have hnum : b.num ≠ 0 := Rat.num_ne_zero.2 hb
    have hnumq : (b.num : ℚ) ≠ 0 := Int.cast_ne_zero.2 hnum
    have ha := qden_ne_zero_q a
    have key : ((b.num.sign : ℚ)) * (b.num : ℚ) = |(b.num : ℚ)| := by
      have h2 : b.num.sign * b.num = |b.num| :=
        (sign_mul_self_intAux b.num).trans (Int.abs_eq_natAbs b.num).symm
      exact_mod_cast h2
    have habs2 : |(b.num : ℚ)| ≠ 0 := abs_ne_zero.2 hnumq
    rw [qdiv, Rat.mkRat_eq_div]
    conv_rhs => rw [← Rat.num_div_den a, ← Rat.num_div_den b]
    push_cast [Int.cast_natAbs]
    rw [div_div_div_eq]
    rw [div_eq_div_iff (mul_ne_zero ha habs2) (mul_ne_zero ha hnumq)]
    linear_combination ((a.num : ℚ) * b.den * a.den) * key

/-! ## Rounding and `floats_match` (src/utils.py) -/

/-- Computable absolute value on `ℚ`. -/
def pyAbs (q : ℚ) : ℚ := if q < 0 then qneg q else q

/-- Computable binary maximum on `ℚ`. -/
def rmax (a b : ℚ) : ℚ := if a ≤ b then b else a

/-- Computable floor of a rational (numerator floor-divided by
denominator). -/
def rfloor (x : ℚ) : ℤ := Int.fdiv x.num x.den

theorem pyAbs_eq_abs (q : ℚ) : pyAbs q = |q| := by
  by_cases h : q < 0
  · rw [pyAbs, if_pos h, qneg_eq, abs_of_neg h]
  · rw [pyAbs, if_neg h, abs_of_nonneg (le_of_not_lt h)]

theorem rmax_eq_max (a b : ℚ) : rmax a b = max a b := by
  by_cases h : a ≤ b
  · rw [rmax, if_pos h, max_eq_right h]
  · rw [rmax, if_neg h, max_eq_left (le_of_not_le h)]

theorem pyAbs_qsub_comm (a b : ℚ) : pyAbs (qsub a b) = pyAbs (qsub b a) := by
  rw [pyAbs_eq_abs, pyAbs_eq_abs, qsub_eq, qsub_eq, abs_sub_comm]

theorem rmax_left_comm (a b c : ℚ) : rmax a (rmax b c) = rmax b (rmax a c) := by
  rw [rmax_eq_max, rmax_eq_max, rmax_eq_max, rmax_eq_max, max_left_comm]

/-- Round-half-even of a rational to an integer, the rounding mode of
Python's built-in `round`. -/
def roundHalfEven (x : ℚ) : ℤ :=
  let f : ℤ := rfloor x
  let r : ℚ := qsub x (intToQ f)
  if r < mkRat 1 2 then f
  else if mkRat 1 2 < r then f + 1
  else if f % 2 = 0 then f else f + 1

/-- Python `round(x, 2)` on the rational model. -/
def round2 (x : ℚ) : ℚ :=
  mkRat (roundHalfEven (qmul x (mkRat 100 1))) 100

/-- Embeds `utils.floats_match` (src/utils.py lines 100-116): `None` on both
sides matches; one-sided `None` is compared as zero against the tolerance;
otherwise both sides are rounded to 2 decimals and compared with the
absolute tolerance, falling back to the relative tolerance
`|a-b| / max(|a|,|b|,1) <= max(tolerance, 1e-6)`. -/
def floatsMatch (a b : Option ℚ) (tolerance : ℚ) : Bool :=
  match a, b with
  | Option.none, Option.none => true
  | Option.none, some y => decide (pyAbs y ≤ tolerance)
  | some x, Option.none => decide (pyAbs x ≤ tolerance)
  | some x, some y =>
    let a2 := round2 x
    let b2 := round2 y
    if pyAbs (qsub a2 b2) ≤ tolerance then true
    else
      let denom := rmax (pyAbs a2) (rmax (pyAbs b2) 1)
      decide (qdiv (pyAbs (qsub a2 b2)) denom ≤ rmax tolerance (mkRat 1 1000000))

/-- C3, counterexample: the claim asserts `|a − b| ≤ t` alone forces a
match, but the code first rounds both sides to 2 decimals, and rounding can
push the compared difference past both the absolute and the relative
tolerance.  At `a = 0.001`, `b = 0.016`, `t = 0.015` the true difference is
exactly `0.015 ≤ t`, yet the rounded values `0.00` and `0.02` differ by
`0.02 > 0.015` and the relative fallback `0.02 / 1` also exceeds `0.015`,
so `floats_match` returns `False`. -/
theorem floatsMatch_not_abs_tol_complete :
    |mkRat 1 1000 - mkRat 16 1000| ≤ mkRat 15 1000 ∧
      floatsMatch (some (mkRat 1 1000)) (some (mkRat 16 1000)) (mkRat 15 1000)
        = false := by
  constructor
  · rw [Rat.mkRat_eq_div, Rat.mkRat_eq_div, Rat.mkRat_eq_div]
    push_cast
    rw [abs_le]
    norm_num
  · decide

/-- C3 (amended): for all rationals, if the difference of the
2-decimal-rounded values is within the tolerance then `floats_match`
returns `True`; and `floats_match` is symmetric in its two value arguments
(for every combination of present and `None` sides), including the
rounding and relative-tolerance steps. -/
theorem floatsMatch_round2_tol_and_symm :
    (∀ a b t : ℚ, |round2 a - round2 b| ≤ t →
        floatsMatch (some a) (some b) t = true) ∧
    (∀ (a b : Option ℚ) (t : ℚ), floatsMatch a b t = floatsMatch b a t) := by
  constructor
  · intro a b t h
    rw [← qsub_eq, ← pyAbs_eq_abs] at h
    simp only [floatsMatch]
    rw [if_pos h]
  · intro a b t
    cases a with
    | none => cases b with
      | none => rfl
      | some y => rfl
    | some x => cases b with
      | none => rfl
      | some y =>
        simp only [floatsMatch]
        rw [pyAbs_qsub_comm (round2 x) (round2 y),
          rmax_left_comm (pyAbs (round2 x)) (pyAbs (round2 y)) 1]

/-- Witness for the amended C3: at `a = 0.01`, `b = 0.02`, `t = 0.01` the
rounded difference is within tolerance and `floats_match` indeed returns
`True`; symmetry instantiated at the same point. -/
theorem floatsMatch_round2_tol_and_symm_witness :
    |round2 (mkRat 1 100) - round2 (mkRat 2 100)| ≤ mkRat 1 100 ∧
      floatsMatch (some (mkRat 1 100)) (some (mkRat 2 100)) (mkRat 1 100)
        = true ∧
      floatsMatch (some (mkRat 1 100)) (some (mkRat 2 100)) (mkRat 1 100)
        = floatsMatch (some (mkRat 2 100)) (some (mkRat 1 100)) (mkRat 1 100) :=
  ⟨by rw [← qsub_eq, ← pyAbs_eq_abs]; decide,
   floatsMatch_round2_tol_and_symm.1 (mkRat 1 100) (mkRat 2 100) (mkRat 1 100)
     (by rw [← qsub_eq, ← pyAbs_eq_abs]; decide),
   floatsMatch_round2_tol_and_symm.2 (some (mkRat 1 100)) (some (mkRat 2 100))
     (mkRat 1 100)⟩

/-- C4: in `floats_match`, a single `None` side matches exactly when the
other side's absolute value is within the tolerance (null is compared as
zero), and two `None` sides always match. -/
theorem floatsMatch_null_sides :
    ∀ (x t : ℚ),
      (floatsMatch Option.none (some x) t = true ↔ |x| ≤ t) ∧
      (floatsMatch (some x) Option.none t = true ↔ |x| ≤ t) ∧
      floatsMatch (Option.none : Option ℚ) Option.none t = true := by
  intro x t
  refine ⟨?_, ?_, rfl⟩ <;> simp [floatsMatch, pyAbs_eq_abs]

/-! ## String primitives (ASCII models of Python `str`/`re` operations) -/

/-- Python `\s` whitespace class (ASCII part). -/
def isSpaceChar (c : Char) : Bool :=
  c = ' ' || c = '\t' || c = '\n' || c = '\x0d' || c = '\x0b' || c = '\x0c'

/-- Python `\w` word-character class (ASCII part). -/
def isWordChar (c : Char) : Bool :=
  c.isAlphanum || c = '_'

/-- Python `str.lower` (ASCII). -/
def pyLower (s : String) : String := String.mk (s.data.map Char.toLower)

/-- Drop leading whitespace. -/
def lstripL (l : List Char) : List Char := l.dropWhile (fun c => isSpaceChar c)

/-- Python `str.strip()`. -/
def pyStrip (s : String) : String :=
  String.mk ((lstripL s.data).reverse.dropWhile (fun c => isSpaceChar c) |>.reverse)

/-- Collapse every maximal whitespace run to a single space
(`re.sub(r"\s+", " ", ·)`). -/
def collapseWsAux : Bool → List Char → List Char
  | _, [] => []
  | prev, c :: rest =>
    if isSpaceChar c then
      if prev then collapseWsAux true rest else ' ' :: collapseWsAux true rest
    else c :: collapseWsAux false rest

/-- `utils.normalize_text`: collapse whitespace, strip, lower-case;
`None` passes through. -/
def normalizeText (v : Option String) : Option String :=
  v.map fun s => pyLower (pyStrip (String.mk (collapseWsAux false s.data)))

/-- List prefix test. -/
def listPrefix : List Char → List Char → Bool
  | [], _ => true
  | _ :: _, [] => false
  | a :: as, b :: bs => a = b && listPrefix as bs

/-- Substring test on character lists (Python `in`). -/
def isSubstrL (needle : List Char) : List Char → Bool
  | [] => listPrefix needle []
  | c :: rest => listPrefix needle (c :: rest) || isSubstrL needle rest

/-- Python `needle in haystack` on strings. -/
def substr (needle haystack : String) : Bool := isSubstrL needle.data haystack.data

/-- Python `str.startswith`. -/
def pyStartsWith (s pre : String) : Bool := listPrefix pre.data s.data

/-- Whitespace split (Python `str.split()` with no argument): maximal
non-whitespace runs. -/
def splitWsAux : List Char → List Char → List String
  | cur, [] => if cur.isEmpty then [] else [String.mk cur.reverse]
  | cur, c :: rest =>
    if isSpaceChar c then
      if cur.isEmpty then splitWsAux [] rest
      else String.mk cur.reverse :: splitWsAux [] rest
    else splitWsAux (c :: cur) rest

def splitWs (s : String) : List String := splitWsAux [] s.data

/-- Maximal digit runs (`re.findall(r"\d+", ·)`). -/
def digitRunsAux : List Char → List Char → List String
  | cur, [] => if cur.isEmpty then [] else [String.mk cur.reverse]
  | cur, c :: rest =>
    if c.isDigit then digitRunsAux (c :: cur) rest
    else if cur.isEmpty then digitRunsAux [] rest
    else String.mk cur.reverse :: digitRunsAux [] rest

def digitRuns (s : String) : List String := digitRunsAux [] s.data

/-- Keep only the first occurrence of each element (models iterating a
Python `set` built by insertion; only membership matters downstream). -/
def dedupFirst : List String → List String → List String
  | _, [] => []
  | seen, w :: rest =>
    if seen.contains w then dedupFirst seen rest
    else w :: dedupFirst (w :: seen) rest

/-- Digits of a numeric literal to a natural number. -/
def digitsToNat (l : List Char) : ℕ :=
  l.foldl (fun acc c => acc * 10 + (c.toNat - 48)) 0

/-- Python `float(text)` on an already-stripped string: optional sign,
decimal digits with at most one point, optional exponent.  (`inf`/`nan`
literals are modelled as failures; no caller below can produce them.) -/
def parseFloatStr (s : String) : Option ℚ :=
  let l := s.data
  let (sgn, l1) : ℤ × List Char :=
    match l with
    | '-' :: rest => (-1, rest)
    | '+' :: rest => (1, rest)
    | _ => (1, l)
  let intPart := l1.takeWhile (fun c => c.isDigit)
  let l2 := l1.dropWhile (fun c => c.isDigit)
  let (fracPart, l3) : List Char × List Char :=
    match l2 with
    | '.' :: rest => (rest.takeWhile (fun c => c.isDigit), rest.dropWhile (fun c => c.isDigit))
    | _ => ([], l2)
  if intPart.isEmpty && fracPart.isEmpty then Option.none
  else
    let mantissa : ℤ := sgn * digitsToNat (intPart ++ fracPart)
    let fracLen := fracPart.length
    match l3 with
    | [] => some (mkRat mantissa (10 ^ fracLen))
    | e :: rest =>
      if e = 'e' || e = 'E' then
        let (esgn, r1) : Bool × List Char :=
          match rest with
          | '-' :: r => (true, r)
          | '+' :: r => (false, r)
          | _ => (false, rest)
        let eDigits := r1.takeWhile (fun c => c.isDigit)
        let r2 := r1.dropWhile (fun c => c.isDigit)
        if eDigits.isEmpty || !r2.isEmpty then Option.none
        else
          let ev := digitsToNat eDigits
          if esgn then some (mkRat mantissa (10 ^ (fracLen + ev)))
          else some (mkRat (mantissa * (10 : ℤ) ^ ev) (10 ^ fracLen))
      else Option.none

/-- Python `int(text)` on an already-stripped string: optional sign and
decimal digits only. -/
def parseIntStr (s : String) : Option ℤ :=
  let (sgn, l1) : ℤ × List Char :=
    match s.data with
    | '-' :: rest => (-1, rest)
    | '+' :: rest => (1, rest)
    | _ => (1, s.data)
  if l1.isEmpty || l1.any (fun c => !c.isDigit) then Option.none
  else some (sgn * digitsToNat l1)

/-! ## utils.py: parsing and string matching -/

/-- `utils.strings_equal`: equality of normalized texts. -/
def stringsEqual (a b : Option String) : Bool :=
  normalizeText a == normalizeText b

/-- `utils.strings_close`: normalized equality short-circuits, empty or
missing sides fail, otherwise `difflib.SequenceMatcher.ratio` (a library
call, abstracted as the `ratio` argument) is compared to the threshold. -/
def stringsClose (ratio : String → String → ℚ) (a b : Option String)
    (threshold : ℚ) : Bool :=
  let na := normalizeText a
  let nb := normalizeText b
  if na == nb then true
  else
    match na, nb with
    | some x, some y =>
      if x = "" || y = "" then false else decide (ratio x y ≥ threshold)
    | _, _ => false

/-- Stop words of `utils._extract_meaningful_words`. -/
def stopWords : List String :=
  ["the", "for", "and", "with", "from", "this", "that", "are", "was", "were"]

/-- `utils._extract_meaningful_words`: lower-case, replace non-word
characters by spaces, split, keep words of length ≥ 3 that are not stop
words.  The Python function returns a `set`; it is modelled as the list of
first occurrences (membership downstream is order-independent). -/
def extractMeaningfulWords (text : String) : List String :=
  let normalized :=
    String.mk ((pyLower text).data.map fun c => if isWordChar c then c else ' ')
  dedupFirst [] ((splitWs normalized).filter fun w =>
    decide (w.length ≥ 3) && !stopWords.contains w)

/-- Adjacent 2-word phrases of a word list. -/
def adjacentPhrases : List String → List String
  | [] => []
  | [_] => []
  | a :: b :: rest => (a ++ " " ++ b) :: adjacentPhrases (b :: rest)

/-- `utils.strings_share_key_phrases`: enough shared meaningful words, or a
common adjacent 2-word phrase. -/
def stringsShareKeyPhrases (a b : Option String) (minSharedWords : ℕ) : Bool :=
  match a, b with
  | Option.none, _ => false
  | _, Option.none => false
  | some a, some b =>
    let na := pyStrip a
    let nb := pyStrip b
    if na = "" || nb = "" then false
    else
      let wordsA := extractMeaningfulWords na
      let wordsB := extractMeaningfulWords nb
      let shared := wordsA.filter (fun w => wordsB.contains w)
      if shared.length ≥ minSharedWords then true
      else (adjacentPhrases wordsA).any fun pa =>
        (adjacentPhrases wordsB).any fun pb => pa = pb

/-- `utils.strings_contain_match`: case-insensitive equality, containment
either way, shared key phrases, and optionally shared numeric identifier
runs. -/
def stringsContainMatch (a b : Option String) (extractNumbers : Bool) : Bool :=
  match a, b with
  | Option.none, _ => false
  | _, Option.none => false
  | some a, some b =>
    let na := pyStrip a
    let nb := pyStrip b
    if na = "" || nb = "" then false
    else if pyLower na = pyLower nb then true
    else
      let naLower := pyLower na
      let nbLower := pyLower nb
      if substr naLower nbLower || substr nbLower naLower then true
      else if stringsShareKeyPhrases (some na) (some nb) 2 then true
      else if extractNumbers then
        let aNumbers := digitRuns na
        let bNumbers := digitRuns nb
        if !aNumbers.isEmpty && !bNumbers.isEmpty then
          aNumbers.any (fun n => bNumbers.contains n)
          || aNumbers.any (fun n => substr n nb)
          || bNumbers.any (fun n => substr n na)
        else false
      else false

/-- `utils.parse_percentage` restricted to string input: strip, drop `%`
and `,`, parse as float. -/
def parsePercentStr (s : String) : Option ℚ :=
  let text := String.mk ((pyStrip s).data.filter fun c => c ≠ '%' && c ≠ ',')
  if text = "" then Option.none else parseFloatStr text

/-- `utils.parse_int` restricted to string input: strip, drop `,`, parse as
int. -/
def parseIntOfStr (s : String) : Option ℤ :=
  let text := String.mk ((pyStrip s).data.filter fun c => c ≠ ',')
  if text = "" then Option.none else parseIntStr text

/-- Characters removed one-at-a-time by `parse_currency`'s symbol pass. -/
def isCurrencyDropChar (c : Char) : Bool :=
  isSpaceChar c || c = '$' || c = '€' || c = '₹' || c = '¥' || c = '£'

/-- Case-insensitive 3-letter currency codes removed by `parse_currency`. -/
def isCurrencyCode (c1 c2 c3 : Char) : Bool :=
  let l := String.mk [c1.toLower, c2.toLower, c3.toLower]
  l = "usd" || l = "inr" || l = "cny" || l = "eur" || l = "gbp"

/-- Symbol-stripping pass of `parse_currency`
(`re.sub(r"[\s$€₹¥£]|USD|INR|CNY|EUR|GBP", "", ·, IGNORECASE)`): the
single-character class is tried before the 3-letter codes at each
position, scanning left to right. -/
def stripCurrencySymbols : List Char → List Char
  | [] => []
  | [c] => if isCurrencyDropChar c then [] else [c]
  | [c1, c2] =>
    if isCurrencyDropChar c1 then stripCurrencySymbols [c2]
    else c1 :: stripCurrencySymbols [c2]
  | c1 :: c2 :: c3 :: rest =>
    if isCurrencyDropChar c1 then stripCurrencySymbols (c2 :: c3 :: rest)
    else if isCurrencyCode c1 c2 c3 then stripCurrencySymbols rest
    else c1 :: stripCurrencySymbols (c2 :: c3 :: rest)

/-- One step of `re.sub(r"\bRs\.?\s*", "", ·, IGNORECASE)`: fuelled scanner
tracking the previous original character for the word boundary. -/
def stripRsFuel : ℕ → Option Char → List Char → List Char
  | 0, _, l => l
  | _ + 1, _, [] => []
  | fuel + 1, prev, c :: rest =>
    let boundary := match prev with
      | Option.none => true
      | some p => !isWordChar p
    if boundary && (c = 'R' || c = 'r') then
      match rest with
      | c2 :: rest2 =>
        if c2 = 's' || c2 = 'S' then
          let (last1, rest3) : Char × List Char :=
            match rest2 with
            | '.' :: r => ('.', r)
            | _ => (c2, rest2)
          let ws := rest3.takeWhile (fun ch => isSpaceChar ch)
          let rest4 := rest3.dropWhile (fun ch => isSpaceChar ch)
          let lastC := ws.getLastD last1
          stripRsFuel fuel (some lastC) rest4
        else c :: stripRsFuel fuel (some c) rest
      | [] => [c]
    else c :: stripRsFuel fuel (some c) rest

/-- Comma pass of `parse_currency`: if a dot is present, commas are removed
only before the first dot; otherwise all commas are removed. -/
def stripCommas (l : List Char) : List Char :=
  if l.contains '.' then
    let before := l.takeWhile (fun c => c ≠ '.')
    let after := l.dropWhile (fun c => c ≠ '.')
    before.filter (fun c => c ≠ ',') ++ after
  else l.filter (fun c => c ≠ ',')

/-- `utils.parse_currency` restricted to string input: strip `Rs`,
currency symbols and codes, thousands separators, then any character that
is not a digit, dot or minus; reject `""`, `"-"`, `"."`; parse as float. -/
def parseCurrencyStr (s : String) : Option ℚ :=
  let l0 := s.data
  let l1 := stripRsFuel (l0.length + 1) Option.none l0
  let l2 := stripCurrencySymbols l1
  let l3 := stripCommas l2
  let l4 := l3.filter fun c => c.isDigit || c = '.' || c = '-'
  let text := String.mk l4
  if text = "" || text = "-" || text = "." then Option.none
  else parseFloatStr text

/-- `utils.only_digits` restricted to string input. -/
def onlyDigitsStr (s : String) : Option String :=
  let d := String.mk (s.data.filter fun c => c.isDigit)
  if d = "" then Option.none else some d

/-! ## Dynamically-typed Python values and external primitives -/

/-- A Python value as seen by the validator: `None`, booleans, ints,
floats (modelled as `ℚ`), strings, lists, and string-keyed dicts
(association lists). -/
inductive Value where
  | none
  | bool (b : Bool)
  | int (n : ℤ)
  | float (q : ℚ)
  | str (s : String)
  | list (elems : List Value)
  | dict (entries : List (String × Value))

/-- `v is None`. -/
def Value.isNone : Value → Bool
  | .none => true
  | _ => false

/-- Python truthiness. -/
def truthy : Value → Bool
  | .none => false
  | .bool b => b
  | .int n => decide (n ≠ 0)
  | .float q => decide (q ≠ 0)
  | .str s => !(s = "")
  | .list l => !l.isEmpty
  | .dict l => !l.isEmpty

/-- Python `x or y` (first truthy operand, else the second). -/
def pyOr (a b : Value) : Value := if truthy a then a else b

/-- `d.get(k)`: `None` both for a missing key and a stored `None`. -/
def dget (d : List (String × Value)) (k : String) : Value :=
  match d.find? (fun p => p.1 == k) with
  | some p => p.2
  | Option.none => Value.none

/-- `k in d`. -/
def hasKey (d : List (String × Value)) (k : String) : Bool :=
  d.any (fun p => p.1 == k)

/-- `d[k] = v` with dict overwrite semantics. -/
def dinsert (d : List (String × Value)) (k : String) (v : Value) :
    List (String × Value) :=
  if d.any (fun p => p.1 == k) then
    d.map (fun p => if p.1 == k then (k, v) else p)
  else d ++ [(k, v)]

/-- Library calls outside the repository, abstracted: difflib's
`SequenceMatcher.ratio`, the `datetime.strptime` format loop of
`utils.parse_date` (a parsed date is an abstract day number), and Python's
`str()` on floats and on container objects. -/
structure Prims where
  ratio : String → String → ℚ
  strptimeDate : String → Option ℤ
  reprFloat : ℚ → String
  reprObj : Value → String

/-- Python `str(v)`. -/
def pyStr (p : Prims) : Value → String
  | .none => "None"
  | .bool b => if b then "True" else "False"
  | .int n => toString n
  | .float q => p.reprFloat q
  | .str s => s
  | v => p.reprObj v

/-- Python `float(v)` where the source applies it to ints, floats, bools or
numeric strings.  A `float()` call that would raise in Python is modelled
as `None`; no theorem below exercises that case. -/
def pyFloatOpt : Value → Option ℚ
  | .bool b => some (if b then 1 else 0)
  | .int n => some (intToQ n)
  | .float q => some q
  | .str s => parseFloatStr (pyStrip s)
  | _ => Option.none

/-- Total version of `pyFloatOpt` used where the Python code calls
`float(...)` unguarded (a raise is modelled as 0; no theorem depends on
that path). -/
def pyFloat (v : Value) : ℚ := (pyFloatOpt v).getD 0

/-- Python `int(v)` on ints, bools, floats (truncation toward zero) and
integer strings; a raising call is modelled as 0 (unused by theorems). -/
def pyIntOpt : Value → Option ℤ
  | .bool b => some (if b then 1 else 0)
  | .int n => some n
  | .float q => some (Int.tdiv q.num q.den)
  | .str s => parseIntStr (pyStrip s)
  | _ => Option.none

def pyInt (v : Value) : ℤ := (pyIntOpt v).getD 0

/-- `utils.parse_date`: `None` in, `None` out; empty text is `None`;
otherwise the `strptime` format loop (external) decides. -/
def parseDateV (p : Prims) (v : Value) : Option ℤ :=
  match v with
  | .none => Option.none
  | _ =>
    let text := pyStrip (pyStr p v)
    if text = "" then Option.none else p.strptimeDate text

/-- `utils.parse_currency` on an arbitrary value (`None` in, `None` out). -/
def parseCurrencyV (p : Prims) (v : Value) : Option ℚ :=
  match v with
  | .none => Option.none
  | _ => parseCurrencyStr (pyStr p v)

/-- `utils.only_digits` on an arbitrary value. -/
def onlyDigitsV (p : Prims) (v : Value) : Option String :=
  match v with
  | .none => Option.none
  | _ => onlyDigitsStr (pyStr p v)

/-! ## validator.py: data model and helpers -/

/-- `validator.FieldResult`.  The Python attributes `match` and `section`
are Lean keywords and are embedded as `match_` and `section_`. -/
structure FieldResult where
  field_name : String
  section_ : String
  expected : Value
  found : Value
  match_ : Bool
  page : Option ℤ := Option.none
  message : Option String := Option.none

/-- `validator.ValidationResult`.  The Python attribute `matches` is a
Lean keyword and is embedded as `matches_`. -/
structure ValidationResult where
  overall_status : String
  total_checked : ℕ
  matches_ : ℕ
  mismatches : ℕ
  details : List FieldResult
  transaction_id : Option String
  pdf_filename : Option String

/-- `config.ValidationRules` (defaults 0.01 / 0.01). -/
structure ValidationRules where
  numeric_tolerance : ℚ := mkRat 1 100
  percentage_tolerance : ℚ := mkRat 1 100

/-- `config.AppConfig` restricted to what the comparator reads. -/
structure AppConfig where
  validation_rules : ValidationRules := {}

/-- `validator.ExtendedField`. -/
structure ExtendedField where
  name : String
  section_ : String
  kind : String
  threshold : ℚ := mkRat 9 10
deriving DecidableEq

/-- `validator._normalize_scalar`: unwrap `{displayValue|value|display|
code|name: ...}`-shaped wrappers, preferring the first key whose value is
neither `None` nor `""`; a single-entry dict falls back to its sole value;
anything else passes through. -/
def normalizeScalar (v : Value) : Value :=
  match v with
  | .dict entries =>
    let firstGood := ["displayValue", "value", "display", "code", "name"].findSome?
      fun k =>
        match entries.find? (fun e => e.1 == k) with
        | some e =>
          (match e.2 with
           | .none => Option.none
           | .str s => if s = "" then Option.none else some e.2
           | _ => some e.2)
        | Option.none => Option.none
    match firstGood with
    | some x => x
    | Option.none =>
      match entries with
      | [e] => e.2
      | _ => v
  | _ => v

/-- `validator._to_bool`: bools pass through; `None` stays `None`; numeric
0/1 coerce; strings via the vocabulary {true,yes,y,1,t} / {false,no,n,0,f}
after strip+lower; everything else is `None`. -/
def toBool : Value → Option Bool
  | .bool b => some b
  | .none => Option.none
  | .int n => if n = 0 then some false else if n = 1 then some true else Option.none
  | .float q => if q = 0 then some false else if q = 1 then some true else Option.none
  | .str s =>
    let normalized := pyLower (pyStrip s)
    if ["true", "yes", "y", "1", "t"].contains normalized then some true
    else if ["false", "no", "n", "0", "f"].contains normalized then some false
    else Option.none
  | _ => Option.none

/-- `validator._to_float`: numbers (and bools) cast to float, strings via
`parse_currency`. -/
def toFloat (p : Prims) : Value → Option ℚ
  | .none => Option.none
  | .bool b => some (if b then 1 else 0)
  | .int n => some (intToQ n)
  | .float q => some q
  | v => parseCurrencyStr (pyStr p v)

/-- `validator._to_percent`: numbers (and bools) cast to float, strings via
`parse_percentage`. -/
def toPercent (p : Prims) : Value → Option ℚ
  | .none => Option.none
  | .bool b => some (if b then 1 else 0)
  | .int n => some (intToQ n)
  | .float q => some q
  | v => parsePercentStr (pyStr p v)

/-- `validator._to_string`: stripped text, empty becomes `None`. -/
def toStringV (p : Prims) : Value → Option String
  | .none => Option.none
  | v =>
    let text := pyStrip (pyStr p v)
    if text = "" then Option.none else some text

/-- Lift an optional rational into a `Value`. -/
def optQ : Option ℚ → Value
  | some q => .float q
  | Option.none => .none

/-- Lift an optional string into a `Value`. -/
def optS : Option String → Value
  | some s => .str s
  | Option.none => .none

/-- Lift an optional bool into a `Value`. -/
def optB : Option Bool → Value
  | some b => .bool b
  | Option.none => .none

set_option maxHeartbeats 2000000 in
/-- `validator.EXTENDED_FIELDS`: the declarative catalog of 81 extended
attributes (name, section, kind; every entry uses the default threshold
0.9). -/
def EXTENDED_FIELDS : List ExtendedField := [
  { name := "pVRSMLevelFlag_t_c", section_ := "Header", kind := "bool" },
  { name := "partnerTermsAndCondition_t_c", section_ := "Header", kind := "string" },
  { name := "validStagesForCurrentProcess_t_c", section_ := "Header", kind := "string" },
  { name := "previousReviewReasons_t_c", section_ := "Header", kind := "string" },
  { name := "copyProcess_t_c", section_ := "Header", kind := "bool" },
  { name := "makeTransition_t_c", section_ := "Header", kind := "bool" },
  { name := "contingencyAllowableValue_t_c", section_ := "Header", kind := "string" },
  { name := "keystoneConfigFlag_t_c", section_ := "Header", kind := "bool" },
  { name := "_tax_isTaxInclusive_t", section_ := "Header", kind := "bool" },
  { name := "lineLockDiscountMessagesJSON_t_c", section_ := "Header", kind := "string" },
  { name := "geoFinanceLeadFlag_t_c", section_ := "Header", kind := "bool" },
  { name := "copyLinesFlag_t_c", section_ := "Header", kind := "bool" },
  { name := "_s_priceScoreSimpleMarginUnitCost_t", section_ := "Summary", kind := "numeric" },
  { name := "test_c", section_ := "Header", kind := "bool" },
  { name := "version_number_createUSDQuote_c", section_ := "Header", kind := "string" },
  { name := "partnerInvokedApproval_t_c", section_ := "Header", kind := "bool" },
  { name := "standardProductMarginUSD_t_c", section_ := "Summary", kind := "currency" },
  { name := "addOnStorageAdded_t_c", section_ := "Summary", kind := "bool" },
  { name := "internalRepApprovalPending_t_c", section_ := "Header", kind := "bool" },
  { name := "contractEntityCompanyCMATName_t_c", section_ := "Header", kind := "string" },
  { name := "qLET_FAQ_HTML_Link_t_c", section_ := "Header", kind := "string" },
  { name := "opptyTerritoryId_t_c", section_ := "Header", kind := "string" },
  { name := "promoExpiryFlag_t_c", section_ := "Summary", kind := "bool" },
  { name := "priceWithinPolicy_t", section_ := "Summary", kind := "bool" },
  { name := "rPHoldNetPriceFlag_t_c", section_ := "Summary", kind := "bool" },
  { name := "copyQuoteInitiatedFlag_t_c", section_ := "Header", kind := "bool" },
  { name := "quoteGuidanceToGreen_t_c", section_ := "Summary", kind := "percent" },
  { name := "salesRepEmailId_t_c", section_ := "Header", kind := "string" },
  { name := "showTPDColumns_t_c", section_ := "Summary", kind := "bool" },
  { name := "quoteTotalCapacityGB_t_c", section_ := "Summary", kind := "numeric" },
  { name := "theZeroMarginSpecial_t_c", section_ := "Summary", kind := "bool" },
  { name := "proposalExists_t", section_ := "Summary", kind := "bool" },
  { name := "_tax_isTaxPresent_t", section_ := "Header", kind := "bool" },
  { name := "legalEntities_t_c", section_ := "Header", kind := "picklist" },
  { name := "lSCLevelUpdate_t_c", section_ := "Header", kind := "bool" },
  { name := "presentedToCustomer_t_c", section_ := "Header", kind := "bool" },
  { name := "chooseYouAction_c", section_ := "Header", kind := "string" },
  { name := "jVGlobalFlag_c", section_ := "Header", kind := "bool" },
  { name := "incumbentVendor_Array_Control_t_c", section_ := "Summary", kind := "numeric" },
  { name := "vPFlagRenewals_t_c", section_ := "Header", kind := "bool" },
  { name := "paymentTermsInitialValue_t_c", section_ := "Header", kind := "string" },
  { name := "dDSIgnoredQuotes_t_c", section_ := "Header", kind := "bool" },
  { name := "addOnQuoteStatusFlag_t_c", section_ := "Header", kind := "bool" },
  { name := "salesRBDLevelFlag_t_c", section_ := "Header", kind := "bool" },
  { name := "partnerCompetencyString_t_c", section_ := "Header", kind := "string" },
  { name := "printAndExportFilename_t_c", section_ := "Header", kind := "string" },
  { name := "runTimeLoggedInUser_t_c", section_ := "Header", kind := "string" },
  { name := "_s_assignedTo_t", section_ := "Header", kind := "picklist" },
  { name := "incotermInitialValue_t_c", section_ := "Header", kind := "string" },
  { name := "fPVREOSLFlag_t_c", section_ := "Header", kind := "bool" },
  { name := "quoteFullStackOnlyNetPrice_t_c", section_ := "Summary", kind := "currency" },
  { name := "dealRegApproved_t_c", section_ := "Header", kind := "bool" },
  { name := "_s_quoteForAgreement_t", section_ := "Header", kind := "bool" },
  { name := "labOnDemandLODHasBeenConsidered_t_c", section_ := "Header", kind := "bool" },
  { name := "_s_priceScoreListBased_t", section_ := "Summary", kind := "numeric" },
  { name := "partDescriptionQletOperator_t_c", section_ := "Summary", kind := "picklist" },
  { name := "keyStone_t_c", section_ := "Header", kind := "picklist" },
  { name := "addonQuoteFlag_t_c", section_ := "Header", kind := "bool" },
  { name := "preBuildQuoteFlag_t_c", section_ := "Header", kind := "bool" },
  { name := "hasManagedServicesParts_t_c", section_ := "Header", kind := "bool" },
  { name := "enterDollarAmount_RawCapacity_t_c", section_ := "Summary", kind := "currency" },
  { name := "fullStackMarginUSD_t_c", section_ := "Summary", kind := "currency" },
  { name := "cAPAccount_t_c", section_ := "Header", kind := "string" },
  { name := "previousQuoteDesiredValuesJSON_t_c", section_ := "Header", kind := "string" },
  { name := "policyViolationRegionLevel_t_c", section_ := "Header", kind := "bool" },
  { name := "defaultRequestDate_t", section_ := "Header", kind := "date" },
  { name := "standardJustificationForm_t_c", section_ := "Header", kind := "string" },
  { name := "customDiscountPresent_t_c", section_ := "Summary", kind := "bool" },
  { name := "standardProductMargin_t_c", section_ := "Summary", kind := "currency" },
  { name := "guidanceToGreenAmount_t_c", section_ := "Summary", kind := "currency" },
  { name := "guidanceToYellowAmount_t_c", section_ := "Summary", kind := "currency" },
  { name := "quoteColorRating_t_c", section_ := "Header", kind := "picklist" },
  { name := "freezePriceFlag_t", section_ := "Summary", kind := "bool" },
  { name := "partialShipAllowedFlag_t", section_ := "Header", kind := "bool" },
  { name := "salesAutoApproverFlag_t_c", section_ := "Header", kind := "bool" },
  { name := "currentUserBuyName_t_c", section_ := "Header", kind := "string" },
  { name := "previousUsersLogin_t_c", section_ := "Header", kind := "string" },
  { name := "quoteStatusSentFlag_t_c", section_ := "Header", kind := "bool" },
  { name := "buySellAvailableOptions_t_c", section_ := "Header", kind := "string" },
  { name := "quoteOwnerSSOId_t_c", section_ := "Header", kind := "string" },
  { name := "gTCRiskMessageString_t_c", section_ := "Header", kind := "string" }
]

/-- `validator._evaluate_extended_field`: type-dispatched comparison for an
extended attribute; returns (expected, found, match). -/
def evaluateExtendedField (p : Prims) (f : ExtendedField) (apiVal docVal : Value)
    (config : AppConfig) : Value × Value × Bool :=
  if f.kind = "bool" then
    let apiBool := toBool apiVal
    let docBool := toBool docVal
    let m := match apiBool, docBool with
      | Option.none, Option.none => true
      | some a, some d => a == d
      | _, _ => false
    (optB apiBool, optB docBool, m)
  else if f.kind = "currency" then
    let apiNum := toFloat p apiVal
    let docNum := toFloat p docVal
    (optQ (apiNum.map round2), optQ (docNum.map round2),
      floatsMatch apiNum docNum config.validation_rules.numeric_tolerance)
  else if f.kind = "numeric" then
    let apiNum := toFloat p apiVal
    let docNum := toFloat p docVal
    (optQ apiNum, optQ docNum,
      floatsMatch apiNum docNum config.validation_rules.numeric_tolerance)
  else if f.kind = "percent" then
    let apiPct := toPercent p apiVal
    let docPct := toPercent p docVal
    (optQ (apiPct.map round2), optQ (docPct.map round2),
      floatsMatch apiPct docPct config.validation_rules.percentage_tolerance)
  else if f.kind = "date" then
    let apiDate := parseDateV p apiVal
    let docDate := parseDateV p docVal
    let m := if apiDate.isSome || docDate.isSome then apiDate == docDate else true
    (apiVal, docVal, m)
  else
    let apiStr := toStringV p apiVal
    let docStr := toStringV p docVal
    (optS apiStr, optS docStr, stringsClose p.ratio apiStr docStr f.threshold)

/-- Body of the `EXTENDED_FIELDS` loop of `validate_quote`
(src/validator.py lines 572-589): unwrap both sides, skip when both are
`None`, otherwise emit exactly one `FieldResult` for the entry. -/
def processExtendedField (p : Prims) (config : AppConfig)
    (apiData pdfData : List (String × Value)) (f : ExtendedField) :
    Option FieldResult :=
  let apiVal := normalizeScalar (dget apiData f.name)
  let pdfVal := normalizeScalar (dget pdfData f.name)
  if apiVal.isNone && pdfVal.isNone then Option.none
  else
    let r := evaluateExtendedField p f apiVal pdfVal config
    some { field_name := f.name, section_ := f.section_,
           expected := r.1, found := r.2.1, match_ := r.2.2 }

/-- The `FieldResult`s contributed to `validate_quote` by the
`EXTENDED_FIELDS` loop, in catalog order. -/
def extendedResults (p : Prims) (config : AppConfig)
    (apiData pdfData : List (String × Value)) : List FieldResult :=
  EXTENDED_FIELDS.filterMap (processExtendedField p config apiData pdfData)

/-! ## validator.py: line-item validation -/

/-- `row.get(k)` on a `Value` that should be a dict. -/
def rget (row : Value) (k : String) : Value :=
  match row with
  | .dict d => dget d k
  | _ => Value.none

/-- `row.get(k) if row else None` (Python truthiness on the row). -/
def rowGet (row : Value) (k : String) : Value :=
  if truthy row then rget row k else Value.none

/-- A value passed where Python expects `Optional[str]`; a non-string
non-`None` value would raise inside `re.sub` and is modelled as `None`
(no theorem exercises that path). -/
def strOrNone : Value → Option String
  | .str s => some s
  | _ => Option.none

/-- `isinstance(v, (int, float))` — `bool` is an `int` subclass in
Python and is included. -/
def isNum : Value → Bool
  | .int _ => true
  | .float _ => true
  | .bool _ => true
  | _ => false

/-- Key-priority scan used for `unitListPrice`: first key whose value is a
dict with a non-`None` `value` entry. -/
def firstDictValue (line : Value) : List String → Value
  | [] => Value.none
  | k :: rest =>
    match rget line k with
    | .dict d => if (dget d "value").isNone then firstDictValue line rest
                 else dget d "value"
    | _ => firstDictValue line rest

/-- Key-priority scan for `extendedListPrice`: a dict with a non-`None`
`value`, or a bare number. -/
def firstDictValueOrNum (line : Value) : List String → Value
  | [] => Value.none
  | k :: rest =>
    match rget line k with
    | .dict d => if (dget d "value").isNone then firstDictValueOrNum line rest
                 else dget d "value"
    | v => if isNum v then v else firstDictValueOrNum line rest

/-- Key-priority scan for `extendedNetPrice`: a dict with a non-`None`
`value`, or a bare nonzero number. -/
def firstDictValueOrNonzeroNum (line : Value) : List String → Value
  | [] => Value.none
  | k :: rest =>
    match rget line k with
    | .dict d => if (dget d "value").isNone then firstDictValueOrNonzeroNum line rest
                 else dget d "value"
    | v => if isNum v && truthy v then v else firstDictValueOrNonzeroNum line rest

/-- `v.get("value") if isinstance(v, dict) else None`. -/
def dictValueOrNone (v : Value) : Value :=
  match v with
  | .dict d => dget d "value"
  | _ => Value.none

/-- Python `round(v, 2)` on a `Value` (ints and bools are returned as
ints, as in Python; other non-floats would raise and pass through
unused). -/
def roundV2 : Value → Value
  | .float q => .float (round2 q)
  | .int n => .int n
  | .bool b => .int (if b then 1 else 0)
  | v => v

/-- Python `f"{x:.2f}"` (round half-even to 2 decimals, always two
fractional digits). -/
def formatFixed2 (q : ℚ) : String :=
  let n : ℤ := roundHalfEven (qmul q (mkRat 100 1))
  let a := n.natAbs
  (if n < 0 then "-" else "") ++ toString (a / 100) ++ "." ++
    (if a % 100 < 10 then "0" ++ toString (a % 100) else toString (a % 100))

/-- `f"{x:.2f}"` where `x` may be `None` (which would raise; modelled as
the text `None`, unused by theorems). -/
def fmtOptFixed2 : Option ℚ → String
  | some q => formatFixed2 q
  | Option.none => "None"

/-- `float(v)` inside a `try`/`except` that skips on failure: the
accumulated contribution (0 when the conversion raises). -/
def floatOfExc (v : Value) : ℚ := (pyFloatOpt v).getD 0

/-- `validator._get_api_lines`. -/
def getApiLines (apiData : List (String × Value)) : List Value :=
  let lc := pyOr (dget apiData "transactionLine") (.dict [])
  let fallback : List Value :=
    match dget apiData "items" with
    | .list l => l
    | _ => []
  match lc with
  | .dict entries =>
    if hasKey entries "items" then
      match pyOr (dget entries "items") (.list []) with
      | .list l => l
      | _ => []
    else fallback
  | _ => fallback

/-- The `pdf_by_part` index: rows keyed by stripped part number, dict
overwrite semantics, insertion order. -/
def buildPdfByPart (p : Prims) (rows : List Value) : List (String × Value) :=
  rows.foldl
    (fun acc row =>
      let part := rget row "partNumber"
      if truthy part then dinsert acc (pyStrip (pyStr p part)) row else acc)
    []

/-- Per-line output of the `for line in api_lines` loop: the emitted
`FieldResult`s and the four running-total contributions. -/
structure LineOutcome where
  results : List FieldResult
  apiListC : ℚ
  apiNetC : ℚ
  pdfListC : ℚ
  pdfNetC : ℚ

/-- One iteration of the API-line loop of `validate_line_items`
(src/validator.py lines 650-925), in emission order. -/
def processApiLine (p : Prims) (config : AppConfig)
    (pdfByPart : List (String × Value)) (line : Value) : LineOutcome :=
  let numTol := config.validation_rules.numeric_tolerance
  let pctTol := config.validation_rules.percentage_tolerance
  let apiPart := pyOr (rget line "_part_number")
    (pyOr (rget line "_part_display_number") (rget line "_line_display_name"))
  let pdfRow : Value :=
    if apiPart.isNone then Value.none else dget pdfByPart (pyStr p apiPart)
  let partStr := pyStr p apiPart
  let r1 : FieldResult :=
    { field_name := "_part_number", section_ := "Lines",
      expected := apiPart, found := rowGet pdfRow "partNumber",
      match_ := stringsEqual
        (if apiPart.isNone then Option.none else some partStr)
        (strOrNone (rowGet pdfRow "partNumber")) }
  let apiQty := pyOr (rget line "_price_quantity") (rget line "_line_bom_item_quantity")
  let r2 : FieldResult :=
    { field_name := "quantity", section_ := "Lines",
      expected := apiQty, found := rowGet pdfRow "quantity",
      match_ :=
        if !apiQty.isNone && truthy pdfRow && !(rget pdfRow "quantity").isNone then
          pyInt apiQty == pyInt (rget pdfRow "quantity")
        else false }
  let apiUlp := firstDictValue line
    ["_price_item_price_each", "_price_unit_price_each", "_price_list_price_each"]
  let r3 : FieldResult :=
    { field_name := "unitListPrice", section_ := "Lines",
      expected := apiUlp, found := rowGet pdfRow "unitListPrice",
      match_ := floatsMatch (parseCurrencyV p apiUlp)
        (pyFloatOpt (rowGet pdfRow "unitListPrice")) numTol }
  let apiUnpVal := dictValueOrNone (rget line "netPrice_l")
  let r4 : FieldResult :=
    { field_name := "unitNetPrice", section_ := "Lines",
      expected := apiUnpVal, found := rowGet pdfRow "unitNetPrice",
      match_ := floatsMatch (parseCurrencyV p apiUnpVal)
        (pyFloatOpt (rowGet pdfRow "unitNetPrice")) numTol }
  let apiXlp := firstDictValueOrNum line
    ["_price_extended_price", "extendedListPrice", "listAmount_l"]
  let r5 : FieldResult :=
    { field_name := "extendedListPrice", section_ := "Lines",
      expected := apiXlp, found := rowGet pdfRow "extendedListPrice",
      match_ := floatsMatch (parseCurrencyV p apiXlp)
        (pyFloatOpt (rowGet pdfRow "extendedListPrice")) numTol }
  let apiXnp := firstDictValueOrNonzeroNum line
    ["netAmount_l", "netAmountRollup_l", "netPriceRollup_l",
     "extendedNetPriceUSD_l_c", "rollUpNetPrice_l_c"]
  let xnpMatch := floatsMatch (parseCurrencyV p apiXnp)
    (pyFloatOpt (rowGet pdfRow "extendedNetPrice")) numTol
  let r6 : FieldResult :=
    { field_name := "extendedNetPrice", section_ := "Lines",
      expected := if apiXnp.isNone then Value.none else roundV2 apiXnp,
      found :=
        if truthy pdfRow && !(rget pdfRow "extendedNetPrice").isNone then
          roundV2 (rget pdfRow "extendedNetPrice")
        else Value.none,
      match_ := xnpMatch,
      message := if !xnpMatch then
          some "CRITICAL: Extended Net Price = Quantity × Unit Net Price"
        else Option.none }
  let calcListR : List FieldResult :=
    if truthy apiQty && truthy apiUlp && truthy pdfRow then
      let calculated := qmul (pyFloat apiQty) (pyFloat apiUlp)
      let actual0 := pyOr apiXlp (rowGet pdfRow "extendedListPrice")
      if truthy actual0 then
        let actual := parseCurrencyV p actual0
        let calcMatch := floatsMatch (some calculated) actual numTol
        [{ field_name := "calc_ext_list_" ++ partStr, section_ := "Calculations",
           expected := .float (round2 calculated),
           found := match actual with
             | some q => if q ≠ 0 then .float (round2 q) else Value.none
             | Option.none => Value.none,
           match_ := calcMatch,
           message := if !calcMatch then
               some ("Qty(" ++ pyStr p apiQty ++ ") × Unit List(" ++ pyStr p apiUlp
                 ++ ") = " ++ formatFixed2 calculated ++ ", Found: "
                 ++ fmtOptFixed2 actual)
             else Option.none }]
      else []
    else []
  let apiUnpValForCalc := pyOr apiUnpVal
    (if isNum (rget line "netPrice_l_c") then rget line "netPrice_l_c" else Value.none)
  let calcNetR : List FieldResult :=
    if truthy apiQty && truthy apiUnpValForCalc && truthy pdfRow then
      let calculated := qmul (pyFloat apiQty) (pyFloat apiUnpValForCalc)
      let actual0 := pyOr apiXnp (rowGet pdfRow "extendedNetPrice")
      if truthy actual0 then
        let actual := parseCurrencyV p actual0
        let calcMatch := floatsMatch (some calculated) actual numTol
        [{ field_name := "calc_ext_net_" ++ partStr, section_ := "Calculations",
           expected := .float (round2 calculated),
           found := match actual with
             | some q => if q ≠ 0 then .float (round2 q) else Value.none
             | Option.none => Value.none,
           match_ := calcMatch,
           message := if !calcMatch then
               some ("Qty(" ++ pyStr p apiQty ++ ") × Unit Net(" ++ pyStr p apiUnpValForCalc
                 ++ ") = " ++ formatFixed2 calculated ++ ", Found: "
                 ++ fmtOptFixed2 actual)
             else Option.none }]
      else []
    else []
  let apiDisc0 := pyOr (rget line "discountPercent_l")
    (pyOr (rget line "currentDiscount_l_c") (rget line "currentDiscountEndCustomer_l_c"))
  let apiDisc := match apiDisc0 with
    | .dict d => dget d "value"
    | v => v
  let r9 : FieldResult :=
    { field_name := "discountPercent", section_ := "Lines",
      expected := apiDisc, found := rowGet pdfRow "discountPercent",
      match_ := floatsMatch
        (if apiDisc.isNone then Option.none else pyFloatOpt apiDisc)
        (if truthy pdfRow && !(rget pdfRow "discountPercent").isNone then
           pyFloatOpt (rget pdfRow "discountPercent")
         else Option.none)
        pctTol }
  let apiListC := if truthy apiXlp then floatOfExc apiXlp else 0
  let apiNetC := if truthy apiXnp then floatOfExc apiXnp else 0
  let pdfListC :=
    if truthy pdfRow && truthy (rget pdfRow "extendedListPrice") then
      floatOfExc (rget pdfRow "extendedListPrice")
    else 0
  let pdfNetC :=
    if truthy pdfRow && truthy (rget pdfRow "extendedNetPrice") then
      floatOfExc (rget pdfRow "extendedNetPrice")
    else 0
  let listPriceLine := rget line "listPrice_l_c"
  let r10 : List FieldResult :=
    if isNum listPriceLine && truthy listPriceLine then
      [{ field_name := "listPrice_l_c_" ++ partStr, section_ := "Lines",
         expected := roundV2 listPriceLine,
         found :=
           if truthy pdfRow && truthy (rget pdfRow "extendedListPrice") then
             roundV2 (rget pdfRow "extendedListPrice")
           else Value.none,
         match_ := floatsMatch (some (pyFloat listPriceLine))
           (pyFloatOpt (rowGet pdfRow "extendedListPrice")) numTol }]
    else []
  let rollupNet := rget line "rollUpNetPrice_l_c"
  let r11 : List FieldResult :=
    if isNum rollupNet && truthy rollupNet then
      [{ field_name := "rollUpNetPrice_l_c_" ++ partStr, section_ := "Lines",
         expected := roundV2 rollupNet,
         found :=
           if truthy pdfRow && truthy (rget pdfRow "extendedNetPrice") then
             roundV2 (rget pdfRow "extendedNetPrice")
           else Value.none,
         match_ := floatsMatch (some (pyFloat rollupNet))
           (pyFloatOpt (rowGet pdfRow "extendedNetPrice")) numTol }]
    else []
  let resUnitNet := rget line "rollUpResUnitNetPrice_l_c"
  let r12 : List FieldResult :=
    if isNum resUnitNet && truthy resUnitNet then
      [{ field_name := "rollUpResUnitNetPrice_l_c_" ++ partStr, section_ := "Lines",
         expected := roundV2 resUnitNet,
         found :=
           if truthy pdfRow && truthy (rget pdfRow "unitNetPrice") then
             roundV2 (rget pdfRow "unitNetPrice")
           else Value.none,
         match_ := floatsMatch (some (pyFloat resUnitNet))
           (pyFloatOpt (rowGet pdfRow "unitNetPrice")) numTol }]
    else []
  let r13 : List FieldResult :=
    ["storageTotal_l_c", "serviceTotal_l_c", "hardwareTotal_l_c"].filterMap
      fun fieldName =>
        let apiTotal := rget line fieldName
        if isNum apiTotal && truthy apiTotal then
          some { field_name := fieldName ++ "_" ++ partStr, section_ := "Line Totals",
                 expected := roundV2 apiTotal, found := Value.none, match_ := true }
        else Option.none
  { results := r1 :: r2 :: r3 :: r4 :: r5 :: r6 ::
      (calcListR ++ calcNetR ++ (r9 :: (r10 ++ r11 ++ r12 ++ r13))),
    apiListC := apiListC, apiNetC := apiNetC,
    pdfListC := pdfListC, pdfNetC := pdfNetC }

/-- First candidate value that `is not None`. -/
def nextNonNone : List Value → Value
  | [] => Value.none
  | v :: rest => if v.isNone then nextNonNone rest else v

/-- `(x or {}).get(k) if isinstance(x, dict) else x`. -/
def unwrapKey (v : Value) (k : String) : Value :=
  match v with
  | .dict d => dget d k
  | w => w

/-- Candidate scan of the list-total block of `validate_quote`: a dict
candidate with non-`None` `value` or a bare number wins; other non-`None`
candidates are skipped. -/
def firstListCandidate : List Value → Value
  | [] => Value.none
  | v :: rest =>
    if v.isNone then firstListCandidate rest
    else
      match v with
      | .dict d =>
        if !(dget d "value").isNone then dget d "value" else firstListCandidate rest
      | w => if isNum w then w else firstListCandidate rest

/-- `validator.validate_line_items` (src/validator.py lines 619-1012),
returned as the list of appended `FieldResult`s. -/
def validateLineItems (p : Prims) (config : AppConfig)
    (apiData pdfData : List (String × Value)) : List FieldResult :=
  let numTol := config.validation_rules.numeric_tolerance
  let pctTol := config.validation_rules.percentage_tolerance
  let pdfLines : List Value :=
    match pyOr (dget pdfData "line_items") (.list []) with
    | .list l => l
    | _ => []
  let apiLines := getApiLines apiData
  if pdfLines.isEmpty || apiLines.isEmpty then []
  else
    let pdfByPart := buildPdfByPart p pdfLines
    let countR : FieldResult :=
      { field_name := "line_items_count", section_ := "Lines",
        expected := .int apiLines.length, found := .int pdfLines.length,
        match_ := apiLines.length == pdfLines.length }
    let outs := apiLines.map (processApiLine p config pdfByPart)
    let lineResults := outs.flatMap (fun o => o.results)
    let apiCalcList := outs.foldl (fun a o => qadd a o.apiListC) 0
    let apiCalcNet := outs.foldl (fun a o => qadd a o.apiNetC) 0
    let pdfCalcList := outs.foldl (fun a o => qadd a o.pdfListC) 0
    let pdfCalcNet := outs.foldl (fun a o => qadd a o.pdfNetC) 0
    let apiListTotal := unwrapKey
      (pyOr (dget apiData "quoteListPrice_t_c") (dget apiData "totalOneTimeListAmount_t"))
      "value"
    let apiNetTotal := unwrapKey
      (pyOr (dget apiData "quoteNetPrice_t_c")
        (pyOr (dget apiData "totalOneTimeNetAmount_t") (dget apiData "_transaction_total")))
      "value"
    let pdfListTotal := dget pdfData "quoteListPrice_t_c"
    let pdfNetTotal := dget pdfData "quoteNetPrice_t_c"
    let grandListR : List FieldResult :=
      if decide (apiCalcList > 0) && truthy apiListTotal then
        let parsed := parseCurrencyV p apiListTotal
        let m := floatsMatch parsed (some apiCalcList) numTol
        [{ field_name := "calc_grand_list_total", section_ := "Calculations",
           expected := match parsed with
             | some q => if q ≠ 0 then .float (round2 q) else Value.none
             | Option.none => Value.none,
           found := .float (round2 apiCalcList),
           match_ := m,
           message := some (if !m then
               "CRITICAL: List Grand Total (" ++ fmtOptFixed2 parsed
                 ++ ") should equal sum of all Extended List Prices ("
                 ++ formatFixed2 apiCalcList ++ ")"
             else "Sum of Extended List Prices = " ++ formatFixed2 apiCalcList) }]
      else []
    let grandNetR : List FieldResult :=
      if decide (apiCalcNet > 0) && truthy apiNetTotal then
        let parsed := parseCurrencyV p apiNetTotal
        let m := floatsMatch parsed (some apiCalcNet) numTol
        [{ field_name := "calc_grand_net_total", section_ := "Calculations",
           expected := match parsed with
             | some q => if q ≠ 0 then .float (round2 q) else Value.none
             | Option.none => Value.none,
           found := .float (round2 apiCalcNet),
           match_ := m,
           message := some (if !m then
               "CRITICAL: Net Grand Total (" ++ fmtOptFixed2 parsed
                 ++ ") should equal sum of all Extended Net Prices ("
                 ++ formatFixed2 apiCalcNet ++ ")"
             else "Sum of Extended Net Prices = " ++ formatFixed2 apiCalcNet) }]
      else []
    let pdfListR : List FieldResult :=
      if decide (pdfCalcList > 0) && truthy pdfListTotal then
        [{ field_name := "calc_pdf_list_total", section_ := "Calculations",
           expected := .float (round2 (pyFloat pdfListTotal)),
           found := .float (round2 pdfCalcList),
           match_ := floatsMatch (some (pyFloat pdfListTotal)) (some pdfCalcList) numTol,
           message := some ("Excel: Sum of Extended List Prices = "
             ++ formatFixed2 pdfCalcList) }]
      else []
    let pdfNetR : List FieldResult :=
      if decide (pdfCalcNet > 0) && truthy pdfNetTotal then
        [{ field_name := "calc_pdf_net_total", section_ := "Calculations",
           expected := .float (round2 (pyFloat pdfNetTotal)),
           found := .float (round2 pdfCalcNet),
           match_ := floatsMatch (some (pyFloat pdfNetTotal)) (some pdfCalcNet) numTol,
           message := some ("Excel: Sum of Extended Net Prices = "
             ++ formatFixed2 pdfCalcNet) }]
      else []
    let discountR : List FieldResult :=
      if truthy apiListTotal && truthy apiNetTotal then
        let calcDisc := qmul
          (qdiv (qsub (pyFloat apiListTotal) (pyFloat apiNetTotal)) (pyFloat apiListTotal))
          (intToQ 100)
        let apiDiscount := unwrapKey
          (pyOr (dget apiData "transactionTotalDiscountPercent_t")
            (dget apiData "quoteCurrentDiscount_t_c"))
          "value"
        if truthy apiDiscount then
          [{ field_name := "calc_discount_percent", section_ := "Calculations",
             expected := .float (round2 (pyFloat apiDiscount)),
             found := .float (round2 calcDisc),
             match_ := floatsMatch (some (pyFloat apiDiscount)) (some calcDisc) pctTol,
             message := some ("(List " ++ pyStr p apiListTotal ++ " - Net "
               ++ pyStr p apiNetTotal ++ ") / List × 100 = "
               ++ formatFixed2 calcDisc ++ "%") }]
        else []
      else []
    countR :: lineResults ++ grandListR ++ grandNetR ++ pdfListR ++ pdfNetR ++ discountR

/-! ## validator.py: validate_quote -/

/-- The additional header attributes checked by `validate_quote`
(field name, label). -/
def additionalHeaderFields : List String :=
  ["currency_t", "freightTerms_t_c", "contractName_t", "contractStartDate_t",
   "contractEndDate_t", "lastUpdatedDate_t", "lastUpdatedBy_t",
   "sellingMotion_t_c", "district_t_c"]

/-- One iteration of the additional-header-attributes loop
(src/validator.py lines 521-535): emitted only when the API side is
non-`None`; dict values unwrap `value` or `displayValue`. -/
def additionalHeaderResult (p : Prims) (apiData pdfData : List (String × Value))
    (field : String) : Option FieldResult :=
  let apiRaw := dget apiData field
  if apiRaw.isNone then Option.none
  else
    let apiVal := match apiRaw with
      | .dict d => pyOr (dget d "value") (dget d "displayValue")
      | v => v
    let pdfVal := dget pdfData field
    some { field_name := field, section_ := "Header",
           expected := if apiVal.isNone then Value.none else .str (pyStr p apiVal),
           found := if pdfVal.isNone then Value.none else .str (pyStr p pdfVal),
           match_ := stringsClose p.ratio
             (if truthy apiVal then some (pyStr p apiVal) else Option.none)
             (if truthy pdfVal then some (pyStr p pdfVal) else Option.none)
             (mkRat 9 10) }

/-- One iteration of the additional-pricing-attributes loop
(src/validator.py lines 538-570). -/
def additionalPricingResult (p : Prims) (config : AppConfig)
    (apiData pdfData : List (String × Value)) (field : String)
    (isCurrency : Bool) : Option FieldResult :=
  let aRaw := dget apiData field
  let pRaw := dget pdfData field
  if aRaw.isNone && pRaw.isNone then Option.none
  else if isCurrency then
    let apiParsed := parseCurrencyV p aRaw
    some { field_name := field, section_ := "Summary",
           expected := optQ (apiParsed.map round2),
           found := if pRaw.isNone then Value.none else roundV2 pRaw,
           match_ :=
             if apiParsed.isSome && !pRaw.isNone then
               floatsMatch apiParsed (pyFloatOpt pRaw)
                 config.validation_rules.numeric_tolerance
             else false }
  else
    let aTry : Option (Option ℚ) :=
      if aRaw.isNone then some Option.none else (pyFloatOpt aRaw).map some
    let pTry : Option (Option ℚ) :=
      if pRaw.isNone then some Option.none else (pyFloatOpt pRaw).map some
    let parsed : Option ℚ × Option ℚ × ℚ :=
      match aTry, pTry with
      | some ap, some pp => (ap, pp, config.validation_rules.percentage_tolerance)
      | _, _ => (Option.none, Option.none, 0)
    some { field_name := field, section_ := "Summary",
           expected := optQ (parsed.1.map round2),
           found := optQ (parsed.2.1.map round2),
           match_ :=
             if parsed.1.isSome && parsed.2.1.isSome then
               floatsMatch parsed.1 parsed.2.1 parsed.2.2
             else false }

/-- The aggregation tail of `validate_quote` (src/validator.py lines
594-606): count matches, derive mismatches and the overall status. -/
def mkValidationResult (results : List FieldResult)
    (transactionId pdfFilename : Option String) : ValidationResult :=
  let matchCount := results.countP (fun r => r.match_)
  let mismatchCount := results.length - matchCount
  { overall_status := if mismatchCount = 0 then "PASSED" else "FAILED",
    total_checked := results.length,
    matches_ := matchCount,
    mismatches := mismatchCount,
    details := results,
    transaction_id := transactionId,
    pdf_filename := pdfFilename }

/-- The `results` list built by `validator.validate_quote`
(src/validator.py lines 230-592): the full header/summary comparison
sequence, the extended-attribute loop and the line-item pass, in append
order. -/
def validateQuoteResults (p : Prims) (config : AppConfig)
    (apiData pdfData : List (String × Value)) : List FieldResult :=
  let numTol := config.validation_rules.numeric_tolerance
  let pctTol := config.validation_rules.percentage_tolerance
  let apiQuoteNumber := pyOr (dget apiData "quoteNumber_t_c")
    (pyOr (dget apiData "_document_number") (dget apiData "_id"))
  let pdfQuoteNumber := dget pdfData "quoteNumber_t_c"
  let r1 : FieldResult :=
    { field_name := "quoteNumber_t_c", section_ := "Header",
      expected := apiQuoteNumber, found := pdfQuoteNumber,
      match_ := stringsClose p.ratio
        (if apiQuoteNumber.isNone then Option.none else some (pyStr p apiQuoteNumber))
        (if pdfQuoteNumber.isNone then Option.none else some (pyStr p pdfQuoteNumber))
        (mkRat 92 100) }
  let apiTx := nextNonNone
    [dget apiData "transactionID_t", dget apiData "quoteTransactionID_t_c",
     dget apiData "bs_id", dget apiData "_id", dget apiData "sourceBS_ID_t_c"]
  let pdfTx := dget pdfData "transactionID_t"
  let r2 : FieldResult :=
    { field_name := "transactionID_t", section_ := "Header",
      expected := apiTx, found := pdfTx,
      match_ := onlyDigitsV p apiTx == onlyDigitsV p pdfTx }
  let apiNet := nextNonNone
    [dget apiData "quoteNetPrice_t_c", dget apiData "extNetPrice_t_c",
     dget apiData "netPrice_t_c", dget apiData "totalOneTimeNetAmount_t",
     dget apiData "_transaction_total"]
  let apiNetF := parseCurrencyV p apiNet
  let pdfNetRaw := dget pdfData "quoteNetPrice_t_c"
  let netMatch := floatsMatch apiNetF (pyFloatOpt pdfNetRaw) numTol
  let r3 : FieldResult :=
    { field_name := "quoteNetPrice_t_c", section_ := "Summary",
      expected := optQ (apiNetF.map round2),
      found := if pdfNetRaw.isNone then Value.none else roundV2 pdfNetRaw,
      match_ := netMatch,
      message := if !netMatch then some "CRITICAL: Net Grand Total validation"
        else Option.none }
  let apiList := firstListCandidate
    [dget apiData "quoteListPrice_t_c", dget apiData "totalOneTimeListAmount_t",
     dget apiData "totalListPrice_t_c"]
  let pdfList := dget pdfData "quoteListPrice_t_c"
  let apiListParsed := parseCurrencyV p apiList
  let listMatch := floatsMatch apiListParsed (pyFloatOpt pdfList) numTol
  let r4 : FieldResult :=
    { field_name := "quoteListPrice_t_c", section_ := "Summary",
      expected := optQ (apiListParsed.map round2),
      found := if pdfList.isNone then Value.none else roundV2 pdfList,
      match_ := listMatch,
      message := if !listMatch then
          some "CRITICAL: List Grand Total validation (Unit prices sum to this)"
        else Option.none }
  let apiExtNet := dget apiData "extNetPrice_t_c"
  let r5 : List FieldResult :=
    if apiExtNet.isNone then []
    else
      let f := parseCurrencyV p apiExtNet
      [{ field_name := "extNetPrice_t_c", section_ := "Summary",
         expected := optQ (f.map round2),
         found := if pdfNetRaw.isNone then Value.none else roundV2 pdfNetRaw,
         match_ := floatsMatch f (pyFloatOpt pdfNetRaw) numTol }]
  let apiDesiredNet := dget apiData "quoteDesiredNetPrice_t_c"
  let r6 : List FieldResult :=
    if apiDesiredNet.isNone then []
    else
      let f := parseCurrencyV p apiDesiredNet
      [{ field_name := "quoteDesiredNetPrice_t_c", section_ := "Summary",
         expected := optQ (f.map round2),
         found := if pdfNetRaw.isNone then Value.none else roundV2 pdfNetRaw,
         match_ := floatsMatch f (pyFloatOpt pdfNetRaw) numTol }]
  let apiDisc := pyOr (dget apiData "transactionTotalDiscountPercent_t")
    (dget apiData "quoteCurrentDiscount_t_c")
  let pdfDisc := dget pdfData "quoteCurrentDiscount_t_c"
  let apiDiscF := if apiDisc.isNone then Option.none else pyFloatOpt apiDisc
  let pdfDiscF := if pdfDisc.isNone then Option.none else pyFloatOpt pdfDisc
  let r7 : FieldResult :=
    { field_name := "quoteCurrentDiscount_t_c", section_ := "Summary",
      expected := optQ apiDiscF, found := optQ pdfDiscF,
      match_ := floatsMatch apiDiscF pdfDiscF pctTol }
  let apiCurrency := unwrapKey (dget apiData "currency_t") "value"
  let r8 : FieldResult :=
    { field_name := "currency_t", section_ := "Header",
      expected := apiCurrency, found := dget pdfData "currency_t",
      match_ := stringsEqual (strOrNone apiCurrency)
        (strOrNone (dget pdfData "currency_t")) }
  let apiPricelist := unwrapKey (dget apiData "priceList_t_c") "value"
  let r9 : FieldResult :=
    { field_name := "priceList_t_c", section_ := "Header",
      expected := apiPricelist, found := dget pdfData "priceList_t_c",
      match_ := stringsClose p.ratio (strOrNone apiPricelist)
        (strOrNone (dget pdfData "priceList_t_c")) (mkRat 95 100) }
  let apiStatus := nextNonNone
    [unwrapKey (dget apiData "quoteStatus_t_c") "displayValue",
     unwrapKey (dget apiData "status_t") "displayValue"]
  let r10 : FieldResult :=
    { field_name := "status_t", section_ := "Header",
      expected := apiStatus, found := dget pdfData "status_t",
      match_ := stringsClose p.ratio (strOrNone apiStatus)
        (strOrNone (dget pdfData "status_t")) (mkRat 9 10) }
  let apiCreated := dget apiData "createdDate_t"
  let pdfCreated := dget pdfData "createdDate_t"
  let r11 : FieldResult :=
    { field_name := "createdDate_t", section_ := "Header",
      expected := apiCreated, found := pdfCreated,
      match_ :=
        if truthy apiCreated || truthy pdfCreated then
          parseDateV p apiCreated == parseDateV p pdfCreated
        else true }
  let apiExpires := dget apiData "expiresOnDate_t_c"
  let pdfExpires := dget pdfData "expiresOnDate_t_c"
  let r12 : FieldResult :=
    { field_name := "expiresOnDate_t_c", section_ := "Header",
      expected := apiExpires, found := pdfExpires,
      match_ :=
        if truthy apiExpires || truthy pdfExpires then
          parseDateV p apiExpires == parseDateV p pdfExpires
        else true }
  let apiIncoterm := unwrapKey (dget apiData "incoterm_t_c") "displayValue"
  let r13 : FieldResult :=
    { field_name := "incoterm_t_c", section_ := "Header",
      expected := apiIncoterm, found := dget pdfData "incoterm_t_c",
      match_ := stringsClose p.ratio (strOrNone apiIncoterm)
        (strOrNone (dget pdfData "incoterm_t_c")) (mkRat 92 100) }
  let apiPayterms := unwrapKey (dget apiData "paymentTerms_t_c") "displayValue"
  let r14 : FieldResult :=
    { field_name := "paymentTerms_t_c", section_ := "Header",
      expected := apiPayterms, found := dget pdfData "paymentTerms_t_c",
      match_ := stringsClose p.ratio (strOrNone apiPayterms)
        (strOrNone (dget pdfData "paymentTerms_t_c")) (mkRat 92 100) }
  let apiOrderType := unwrapKey (dget apiData "orderType_t_c") "displayValue"
  let r15 : FieldResult :=
    { field_name := "orderType_t_c", section_ := "Header",
      expected := apiOrderType, found := dget pdfData "orderType_t_c",
      match_ := stringsClose p.ratio (strOrNone apiOrderType)
        (strOrNone (dget pdfData "orderType_t_c")) (mkRat 92 100) }
  let apiQuoteName := pyOr (dget apiData "quoteNameTextArea_t_c")
    (dget apiData "transactionName_t")
  let r16 : FieldResult :=
    { field_name := "quoteNameTextArea_t_c", section_ := "Header",
      expected := apiQuoteName, found := dget pdfData "quoteNameTextArea_t_c",
      match_ := stringsClose p.ratio (strOrNone apiQuoteName)
        (strOrNone (dget pdfData "quoteNameTextArea_t_c")) (mkRat 9 10) }
  let rHeader := additionalHeaderFields.filterMap
    (additionalHeaderResult p apiData pdfData)
  let rPricing := [("extNetPrice_t_c", true), ("quoteDesiredNetPrice_t_c", true),
    ("quoteDesiredDiscount_t_c", false)].filterMap
    fun fp => additionalPricingResult p config apiData pdfData fp.1 fp.2
  let rExtended := extendedResults p config apiData pdfData
  let rLines := validateLineItems p config apiData pdfData
  r1 :: r2 :: r3 :: r4 :: (r5 ++ r6 ++
    (r7 :: r8 :: r9 :: r10 :: r11 :: r12 :: r13 :: r14 :: r15 :: r16 ::
      (rHeader ++ rPricing ++ rExtended ++ rLines)))

/-- `validator.validate_quote` (src/validator.py lines 230-606): the
comparison sequence followed by the aggregation tail. -/
def validateQuote (p : Prims) (config : AppConfig)
    (apiData pdfData : List (String × Value))
    (transactionId pdfFilename : Option String) : ValidationResult :=
  mkValidationResult (validateQuoteResults p config apiData pdfData)
    transactionId pdfFilename

/-! ## excel_parser.py: reconciliation pass -/

/-- A parsed line item as read and written by
`excel_parser.validate_and_correct_parsed_data` (only the six keys the
pass touches). -/
structure LineItem where
  partNumber : Option String
  quantity : Option ℚ
  unitListPrice : Option ℚ
  unitNetPrice : Option ℚ
  extendedListPrice : Option ℚ
  extendedNetPrice : Option ℚ

/-- The parsed document record as read and written by the pass: line items
and the two header grand totals. -/
structure ParsedQuote where
  line_items : List LineItem
  quoteListPrice : Option ℚ
  quoteNetPrice : Option ℚ

/-- `f"... {item.get('partNumber')}"`: `None` renders as `None`. -/
def partDisplay : Option String → String
  | some s => s
  | Option.none => "None"

/-- `math.isclose(a, b, abs_tol=t)` (the default `rel_tol=1e-9` stays
active). -/
def mathIsClose (a b absTol : ℚ) : Bool :=
  decide (pyAbs (qsub a b) ≤
    rmax (qmul (mkRat 1 1000000000) (rmax (pyAbs a) (pyAbs b))) absTol)

/-- Per-item output of the reconciliation loop. -/
structure ItemOutcome where
  item : LineItem
  warnings : List String
  cList : ℚ
  cNet : ℚ

/-- One iteration of the item loop of
`excel_parser.validate_and_correct_parsed_data` (src/excel_parser.py lines
1259-1298): fill missing extended prices from quantity × unit price
(rounded to 2 decimals) with a warning, then verify present extended
prices within `abs_tol=0.01` with a warning on mismatch, then contribute
to the running totals.  (`reprFloat` renders the `{ext_list}` f-string
interpolation.) -/
def correctItem (p : Prims) (item0 : LineItem) : ItemOutcome :=
  let qty := item0.quantity
  let unitList := item0.unitListPrice
  let unitNet := item0.unitNetPrice
  let part := partDisplay item0.partNumber
  let step1 : LineItem × List String :=
    match item0.extendedListPrice, qty, unitList with
    | Option.none, some q, some u =>
      ({ item0 with extendedListPrice := some (round2 (qmul q u)) },
       ["Calculated extended list price for part " ++ part])
    | _, _, _ => (item0, [])
  let item1 := step1.1
  let step2 : LineItem × List String :=
    match item1.extendedNetPrice, qty, unitNet with
    | Option.none, some q, some u =>
      ({ item1 with extendedNetPrice := some (round2 (qmul q u)) },
       ["Calculated extended net price for part " ++ part])
    | _, _, _ => (item1, [])
  let item2 := step2.1
  let extList := item2.extendedListPrice
  let extNet := item2.extendedNetPrice
  let w3 : List String :=
    match qty, unitList, extList with
    | some q, some u, some e =>
      let expected := round2 (qmul q u)
      if !mathIsClose expected e (mkRat 1 100) then
        ["Extended list price mismatch for part " ++ part ++ ": expected "
          ++ formatFixed2 expected ++ ", found " ++ p.reprFloat e]
      else []
    | _, _, _ => []
  let w4 : List String :=
    match qty, unitNet, extNet with
    | some q, some u, some e =>
      let expected := round2 (qmul q u)
      if !mathIsClose expected e (mkRat 1 100) then
        ["Extended net price mismatch for part " ++ part ++ ": expected "
          ++ formatFixed2 expected ++ ", found " ++ p.reprFloat e]
      else []
    | _, _, _ => []
  { item := item2,
    warnings := step1.2 ++ step2.2 ++ w3 ++ w4,
    cList := extList.getD 0,
    cNet := extNet.getD 0 }

/-- `excel_parser.validate_and_correct_parsed_data` (src/excel_parser.py
lines 1254-1320): the item loop, then grand-total inference (only when the
summed total is truthy, i.e. nonzero) and the informational total checks
(only when the header value is truthy); returns the corrected record and
the extended warning list. -/
def validateAndCorrectParsedData (p : Prims) (res : ParsedQuote)
    (warnings : List String) : ParsedQuote × List String :=
  let processed := res.line_items.map (correctItem p)
  let items2 := processed.map (fun o => o.item)
  let wItems := processed.flatMap (fun o => o.warnings)
  let listTotal := processed.foldl (fun a o => qadd a o.cList) 0
  let netTotal := processed.foldl (fun a o => qadd a o.cNet) 0
  let inferList : Option ℚ × List String :=
    match res.quoteListPrice with
    | Option.none =>
      if listTotal ≠ 0 then
        (some (round2 listTotal), ["Inferred quoteListPrice_t_c from line item totals."])
      else (Option.none, [])
    | some h => (some h, [])
  let inferNet : Option ℚ × List String :=
    match res.quoteNetPrice with
    | Option.none =>
      if netTotal ≠ 0 then
        (some (round2 netTotal), ["Inferred quoteNetPrice_t_c from line item totals."])
      else (Option.none, [])
    | some h => (some h, [])
  let qlp := inferList.1
  let qnp := inferNet.1
  let wListCheck : List String :=
    match qlp with
    | some h =>
      if h ≠ 0 && !mathIsClose h listTotal (mkRat 1 100) then
        ["Line item list total " ++ formatFixed2 listTotal
          ++ " differs from header list total " ++ formatFixed2 h]
      else []
    | Option.none => []
  let wNetCheck : List String :=
    match qnp with
    | some h =>
      if h ≠ 0 && !mathIsClose h netTotal (mkRat 1 100) then
        ["Line item net total " ++ formatFixed2 netTotal
          ++ " differs from header net total " ++ formatFixed2 h]
      else []
    | Option.none => []
  ({ line_items := items2, quoteListPrice := qlp, quoteNetPrice := qnp },
   warnings ++ wItems ++ inferList.2 ++ inferNet.2 ++ wListCheck ++ wNetCheck)

/-! ## excel_parser.py: line-item column-role binding -/

/-- The column-role map of `excel_parser._build_column_map`. -/
structure ColMap where
  part : Option ℕ := Option.none
  description : Option ℕ := Option.none
  quantity : Option ℕ := Option.none
  unit_list : Option ℕ := Option.none
  unit_net : Option ℕ := Option.none
  ext_list : Option ℕ := Option.none
  ext_net : Option ℕ := Option.none
  discount_percent : Option ℕ := Option.none
  discount_amount : Option ℕ := Option.none
  line_total : Option ℕ := Option.none

/-- `idx in mapping.values()`. -/
def claimedIdx (m : ColMap) (idx : ℕ) : Bool :=
  [m.part, m.description, m.quantity, m.unit_list, m.unit_net, m.ext_list,
   m.ext_net, m.discount_percent, m.discount_amount, m.line_total].contains
    (some idx)

/-- First-pass condition for an extended column (`kw` is `"list"` or
`"net"`): (ext|extended) with the keyword and no `unit`, or the
`estimated`-prefixed variant (which carries no `unit` exclusion). -/
def extFirstPassCond (lowered kw : String) : Bool :=
  ((substr "ext" lowered || substr "extended" lowered) && substr kw lowered
      && !substr "unit" lowered)
  || (substr "estimated" lowered && (substr "ext" lowered || substr "ext." lowered)
      && substr kw lowered)

/-- Second-pass condition for an extended column. -/
def extSecondPassCond (lowered kw : String) : Bool :=
  ((substr "ext" lowered || substr "extended" lowered) && substr kw lowered)
  || (substr "estimated" lowered && (substr "ext" lowered || substr "extended" lowered)
      && substr kw lowered)

/-- Second-pass candidate condition for a unit column before the
ext-exclusion check. -/
def unitCandidateCond (lowered kw : String) : Bool :=
  (substr "unit" lowered && substr kw lowered)
  || (substr "estimated" lowered && substr "unit" lowered && substr kw lowered)
  || (pyStartsWith lowered "unit" && substr kw lowered)
  || (substr kw lowered && substr "price" lowered && substr "each" lowered)
  || (substr kw lowered && substr "price" lowered && substr "unit" lowered)

/-- One label of the first binding pass of `_build_column_map`
(src/excel_parser.py lines 1165-1176). -/
def pass1Step (m : ColMap) (idx : ℕ) (label : String) : ColMap :=
  let lowered := pyLower label
  let m1 := if m.ext_list.isNone && extFirstPassCond lowered "list" then
      { m with ext_list := some idx } else m
  if m1.ext_net.isNone && extFirstPassCond lowered "net" then
    { m1 with ext_net := some idx } else m1

def pass1 : ColMap → ℕ → List String → ColMap
  | m, _, [] => m
  | m, idx, label :: rest => pass1 (pass1Step m idx label) (idx + 1) rest

/-- One label of the second binding pass (src/excel_parser.py lines
1179-1229): the already-claimed check, then the `elif` chain in source
order. -/
def pass2Step (m : ColMap) (idx : ℕ) (label : String) : ColMap :=
  let lowered := pyLower label
  if claimedIdx m idx then m
  else if m.part.isNone && substr "part" lowered && substr "number" lowered then
    { m with part := some idx }
  else if m.description.isNone
      && (substr "description" lowered || substr "product" lowered) then
    { m with description := some idx }
  else if m.quantity.isNone && (substr "qty" lowered || substr "quantity" lowered) then
    { m with quantity := some idx }
  else if m.unit_list.isNone then
    if unitCandidateCond lowered "list" then
      if !substr "ext" lowered && !substr "extended" lowered then
        { m with unit_list := some idx }
      else m
    else m
  else if m.unit_net.isNone then
    if unitCandidateCond lowered "net" then
      if !substr "ext" lowered && !substr "extended" lowered then
        { m with unit_net := some idx }
      else m
    else m
  else if m.ext_list.isNone then
    if extSecondPassCond lowered "list" then { m with ext_list := some idx } else m
  else if m.ext_net.isNone then
    if extSecondPassCond lowered "net" then { m with ext_net := some idx } else m
  else if m.discount_percent.isNone && substr "%" lowered && substr "discount" lowered then
    { m with discount_percent := some idx }
  else if m.discount_amount.isNone && substr "discount" lowered && !substr "%" lowered then
    { m with discount_amount := some idx }
  else if m.line_total.isNone && substr "line" lowered && substr "total" lowered then
    { m with line_total := some idx }
  else m

def pass2 : ColMap → ℕ → List String → ColMap
  | m, _, [] => m
  | m, idx, label :: rest => pass2 (pass2Step m idx label) (idx + 1) rest

/-- The unit-column fallback scan (src/excel_parser.py lines 1233-1249):
first unclaimed column containing the keyword and `price` without
`ext`/`extended`. -/
def fallbackFind (m : ColMap) (kw : String) : ℕ → List String → Option ℕ
  | _, [] => Option.none
  | idx, label :: rest =>
    let lowered := pyLower label
    if !claimedIdx m idx && substr kw lowered && substr "price" lowered
        && !substr "ext" lowered && !substr "extended" lowered then some idx
    else fallbackFind m kw (idx + 1) rest

/-- The `unit_list` fallback block (src/excel_parser.py lines 1233-1240). -/
def applyUnitListFallback (labels : List String) (m : ColMap) : ColMap :=
  if m.unit_list.isNone && m.ext_list.isSome then
    match fallbackFind m "list" 0 labels with
    | some i => { m with unit_list := some i }
    | Option.none => m
  else m

/-- The `unit_net` fallback block (src/excel_parser.py lines 1242-1249). -/
def applyUnitNetFallback (labels : List String) (m : ColMap) : ColMap :=
  if m.unit_net.isNone && m.ext_net.isSome then
    match fallbackFind m "net" 0 labels with
    | some i => { m with unit_net := some i }
    | Option.none => m
  else m

/-- `excel_parser._build_column_map` (src/excel_parser.py lines
1150-1251): the two binding passes followed by the two unit-price
fallbacks. -/
def buildColumnMap (labels : List String) : ColMap :=
  applyUnitNetFallback labels (applyUnitListFallback labels
    (pass2 (pass1 {} 0 labels) 0 labels))

/-! ## Claim theorems -/

/-- An arbitrary concrete instantiation of the external primitives, used
only to state closed witnesses and counterexamples; no property below
depends on its behaviour (the inputs chosen never reach a primitive). -/
def defaultPrims : Prims :=
  { ratio := fun _ _ => 0, strptimeDate := fun _ => Option.none,
    reprFloat := fun _ => "", reprObj := fun _ => "" }

theorem mkValidationResult_invariant (L : List FieldResult)
    (tid fn : Option String) :
    ((mkValidationResult L tid fn).overall_status = "PASSED" ↔
      (mkValidationResult L tid fn).mismatches = 0) ∧
    (mkValidationResult L tid fn).total_checked =
      (mkValidationResult L tid fn).details.length ∧
    (mkValidationResult L tid fn).details.length =
      (mkValidationResult L tid fn).matches_ +
        (mkValidationResult L tid fn).mismatches ∧
    (mkValidationResult L tid fn).matches_ =
      (mkValidationResult L tid fn).details.countP (fun r => r.match_) := by
  refine ⟨?_, rfl, ?_, rfl⟩
  · simp only [mkValidationResult]
    by_cases h : L.length - L.countP (fun r => r.match_) = 0
    · simp [h]
    · simp [h]
  · simp only [mkValidationResult]
    exact (Nat.add_sub_cancel' (L.countP_le_length _)).symm

/-- C2: every `ValidationResult` produced by `validate_quote` satisfies
`overallStatus = "PASSED"` iff `mismatches = 0`, and
`totalChecked = len(details) = matches + mismatches` with `matches` the
number of detail entries whose `match` flag is true — for every
configuration, every pair of records, and every instantiation of the
external primitives. -/
theorem validateQuote_aggregation_invariant :
    ∀ (p : Prims) (config : AppConfig)
      (apiData pdfData : List (String × Value)) (tid fn : Option String),
      ((validateQuote p config apiData pdfData tid fn).overall_status = "PASSED" ↔
        (validateQuote p config apiData pdfData tid fn).mismatches = 0) ∧
      (validateQuote p config apiData pdfData tid fn).total_checked =
        (validateQuote p config apiData pdfData tid fn).details.length ∧
      (validateQuote p config apiData pdfData tid fn).details.length =
        (validateQuote p config apiData pdfData tid fn).matches_ +
          (validateQuote p config apiData pdfData tid fn).mismatches ∧
      (validateQuote p config apiData pdfData tid fn).matches_ =
        (validateQuote p config apiData pdfData tid fn).details.countP
          (fun r => r.match_) := by
  intro p config apiData pdfData tid fn
  exact mkValidationResult_invariant (validateQuoteResults p config apiData pdfData)
    tid fn

/-- C1, failing input: with the authoritative record
`{"quoteNumber_t_c": "Q-123"}` and an empty document record, the claimed
skip rule says the quote-number field must be omitted from the results;
instead `validate_quote` emits a `FieldResult` for it with
`found = None` and `match = false`, the run scores exactly one mismatch,
and the overall status is FAILED — for every tolerance configuration and
every instantiation of the external primitives. -/
theorem validateQuote_scores_missing_document_value :
    ∀ (p : Prims) (config : AppConfig),
      (validateQuote p config [("quoteNumber_t_c", Value.str "Q-123")] []
          Option.none Option.none).details.head? =
        some { field_name := "quoteNumber_t_c", section_ := "Header",
               expected := Value.str "Q-123", found := Value.none,
               match_ := false } ∧
      (validateQuote p config [("quoteNumber_t_c", Value.str "Q-123")] []
          Option.none Option.none).mismatches = 1 ∧
      (validateQuote p config [("quoteNumber_t_c", Value.str "Q-123")] []
          Option.none Option.none).overall_status = "FAILED" := by
  intro p config
  exact ⟨rfl, rfl, rfl⟩

/-- C7, failing input: the containment matcher `strings_contain_match`
does accept authoritative part `SG5812A-001-48TB` against document part
`SG5812A-001-48TB-PR`, but `validate_line_items` never calls it — it
indexes document rows by exact part-number string and compares with
`strings_equal` — so the emitted `_part_number` result for this very pair
has `found = None` and `match = false`, for every configuration and every
instantiation of the external primitives. -/
theorem partNumber_containment_not_used_by_line_items :
    stringsContainMatch (some "SG5812A-001-48TB") (some "SG5812A-001-48TB-PR")
      false = true ∧
    ∀ (p : Prims) (config : AppConfig),
      (validateLineItems p config
        [("transactionLine", Value.dict [("items", Value.list
          [Value.dict [("_part_number", Value.str "SG5812A-001-48TB")]])])]
        [("line_items", Value.list
          [Value.dict [("partNumber", Value.str "SG5812A-001-48TB-PR")]])]).get? 1 =
      some { field_name := "_part_number", section_ := "Lines",
             expected := Value.str "SG5812A-001-48TB", found := Value.none,
             match_ := false } := by
  constructor
  · decide
  · intro p config
    rfl

/-- C9, counterexample: the claimed boolean vocabulary includes the
checkmark `✓` as true, but `_to_bool` maps `"✓"` to `None`; consequently a
boolean extended field comparing `"✓"` against `"yes"` — which the claim
scores as two coercible equal booleans, hence a match — is scored by the
code as one-coercible-one-not, a mismatch. -/
theorem toBool_checkmark_not_true :
    toBool (Value.str "✓") = Option.none ∧
    toBool (Value.str "yes") = some true ∧
    (evaluateExtendedField defaultPrims
      { name := "pVRSMLevelFlag_t_c", section_ := "Header", kind := "bool" }
      (Value.str "✓") (Value.str "yes") {}).2.2 = false :=
  ⟨rfl, rfl, rfl⟩

/-- C9 (amended): the boolean coercion vocabulary is
{true,yes,y,1,t} → true and {false,no,n,0,f} → false, case-insensitively
after stripping (numeric 0/1 and genuine bools also coerce; `✓`/`✗` do
not); and on every `bool`-kind field the comparison is: both sides
uncoercible ⇒ match, exactly one coercible ⇒ mismatch, both coercible ⇒
match iff equal. -/
theorem toBool_vocabulary_and_bool_dispatch :
    (∀ s : String,
      toBool (Value.str s) =
        (let n := pyLower (pyStrip s)
         if ["true", "yes", "y", "1", "t"].contains n then some true
         else if ["false", "no", "n", "0", "f"].contains n then some false
         else Option.none)) ∧
    (∀ (p : Prims) (config : AppConfig) (f : ExtendedField) (a b : Value),
      f.kind = "bool" →
      (evaluateExtendedField p f a b config).2.2 =
        (match toBool a, toBool b with
         | Option.none, Option.none => true
         | some x, some y => x == y
         | _, _ => false)) := by
  constructor
  · intro s
    rfl
  · intro p config f a b hkind
    simp only [evaluateExtendedField, hkind]
    rfl

/-- Witness for the amended C9: applied to a concrete `bool` field with
sides `"Yes"` and `"y"`, both coerce to true and the comparison matches. -/
theorem toBool_vocabulary_and_bool_dispatch_witness :
    ({ name := "pVRSMLevelFlag_t_c", section_ := "Header", kind := "bool" }
        : ExtendedField).kind = "bool" ∧
    (evaluateExtendedField defaultPrims
      { name := "pVRSMLevelFlag_t_c", section_ := "Header", kind := "bool" }
      (Value.str "Yes") (Value.str "y") {}).2.2 =
      (match toBool (Value.str "Yes"), toBool (Value.str "y") with
       | Option.none, Option.none => true
       | some x, some y => x == y
       | _, _ => false) ∧
    (evaluateExtendedField defaultPrims
      { name := "pVRSMLevelFlag_t_c", section_ := "Header", kind := "bool" }
      (Value.str "Yes") (Value.str "y") {}).2.2 = true :=
  ⟨rfl,
   toBool_vocabulary_and_bool_dispatch.2 defaultPrims {}
     { name := "pVRSMLevelFlag_t_c", section_ := "Header", kind := "bool" }
     (Value.str "Yes") (Value.str "y") rfl,
   rfl⟩

theorem correctItem_fills_list (p : Prims) (item : LineItem) (q u : ℚ)
    (hE : item.extendedListPrice = Option.none) (hQ : item.quantity = some q)
    (hU : item.unitListPrice = some u) :
    (correctItem p item).item.extendedListPrice = some (round2 (qmul q u)) ∧
    ("Calculated extended list price for part " ++ partDisplay item.partNumber)
      ∈ (correctItem p item).warnings := by
  simp only [correctItem, hE, hQ, hU]
  rcases hN : item.extendedNetPrice with _ | en <;>
    rcases hUN : item.unitNetPrice with _ | un <;>
      simp [hN, hUN, List.mem_append]

theorem correctItem_fills_net (p : Prims) (item : LineItem) (q u : ℚ)
    (hE : item.extendedNetPrice = Option.none) (hQ : item.quantity = some q)
    (hU : item.unitNetPrice = some u) :
    (correctItem p item).item.extendedNetPrice = some (round2 (qmul q u)) ∧
    ("Calculated extended net price for part " ++ partDisplay item.partNumber)
      ∈ (correctItem p item).warnings := by
  simp only [correctItem, hE, hQ, hU]
  rcases hL : item.extendedListPrice with _ | el <;>
    rcases hUL : item.unitListPrice with _ | ul <;>
      simp [hE, hQ, hU, hL, hUL, List.mem_append]

theorem validateAndCorrect_item_at (p : Prims) (res : ParsedQuote)
    (ws : List String) (i : ℕ) (item : LineItem)
    (hi : res.line_items[i]? = some item) :
    (validateAndCorrectParsedData p res ws).1.line_items[i]? =
      some ((correctItem p item).item) := by
  show ((res.line_items.map (correctItem p)).map (fun o => o.item))[i]? = _
  rw [List.getElem?_map, List.getElem?_map, hi]
  rfl

theorem validateAndCorrect_item_warning (p : Prims) (res : ParsedQuote)
    (ws : List String) (item : LineItem) (w : String)
    (hmem : item ∈ res.line_items) (hw : w ∈ (correctItem p item).warnings) :
    w ∈ (validateAndCorrectParsedData p res ws).2 := by
  have h1 : w ∈ (res.line_items.map (correctItem p)).flatMap
      (fun o => o.warnings) :=
    List.mem_flatMap.2 ⟨correctItem p item, List.mem_map_of_mem _ hmem, hw⟩
  show w ∈ ws ++ (res.line_items.map (correctItem p)).flatMap
      (fun o => o.warnings) ++ _ ++ _ ++ _ ++ _
  simp only [List.mem_append]
  left; left; left; left; right
  exact h1

/-- C5: in the reconciliation pass, every parsed line item whose extended
list (resp. net) price is missing while quantity and the corresponding
unit price are present gets that extended price set to
`round(quantity × unit price, 2)`, and a warning naming the part is
appended to the metadata. -/
theorem reconciliation_fills_missing_extended_prices :
    ∀ (p : Prims) (res : ParsedQuote) (ws : List String) (i : ℕ)
      (item : LineItem) (q u : ℚ),
      res.line_items[i]? = some item →
      ((item.extendedListPrice = Option.none → item.quantity = some q →
          item.unitListPrice = some u →
          ∃ item2,
            (validateAndCorrectParsedData p res ws).1.line_items[i]? = some item2 ∧
            item2.extendedListPrice = some (round2 (qmul q u)) ∧
            ("Calculated extended list price for part "
                ++ partDisplay item.partNumber)
              ∈ (validateAndCorrectParsedData p res ws).2) ∧
       (item.extendedNetPrice = Option.none → item.quantity = some q →
          item.unitNetPrice = some u →
          ∃ item2,
            (validateAndCorrectParsedData p res ws).1.line_items[i]? = some item2 ∧
            item2.extendedNetPrice = some (round2 (qmul q u)) ∧
            ("Calculated extended net price for part "
                ++ partDisplay item.partNumber)
              ∈ (validateAndCorrectParsedData p res ws).2)) := by
  intro p res ws i item q u hi
  have hmem : item ∈ res.line_items := List.getElem?_mem hi
  constructor
  · intro hE hQ hU
    obtain ⟨h1, h2⟩ := correctItem_fills_list p item q u hE hQ hU
    exact ⟨(correctItem p item).item,
      validateAndCorrect_item_at p res ws i item hi, h1,
      validateAndCorrect_item_warning p res ws item _ hmem h2⟩
  · intro hE hQ hU
    obtain ⟨h1, h2⟩ := correctItem_fills_net p item q u hE hQ hU
    exact ⟨(correctItem p item).item,
      validateAndCorrect_item_at p res ws i item hi, h1,
      validateAndCorrect_item_warning p res ws item _ hmem h2⟩

/-- A concrete line item for the C5 witness: part `P1`, quantity 10, unit
list price 100, extended prices missing. -/
def c5Item : LineItem :=
  { partNumber := some "P1", quantity := some (intToQ 10),
    unitListPrice := some (intToQ 100), unitNetPrice := Option.none,
    extendedListPrice := Option.none, extendedNetPrice := Option.none }

/-- The C5 witness document record. -/
def c5Quote : ParsedQuote :=
  { line_items := [c5Item], quoteListPrice := Option.none,
    quoteNetPrice := Option.none }

/-- Witness for C5: a single line with part `P1`, quantity 10, unit list
price 100 and no extended list price gets `extendedListPrice = 1000.00`
and the warning `Calculated extended list price for part P1`. -/
theorem reconciliation_fills_missing_extended_prices_witness :
    c5Quote.line_items[0]? = some c5Item ∧
    c5Item.extendedListPrice = Option.none ∧
    c5Item.quantity = some (intToQ 10) ∧
    c5Item.unitListPrice = some (intToQ 100) ∧
    round2 (qmul (intToQ 10) (intToQ 100)) = intToQ 1000 ∧
    (∃ item2,
      (validateAndCorrectParsedData defaultPrims c5Quote []).1.line_items[0]? =
        some item2 ∧
      item2.extendedListPrice = some (round2 (qmul (intToQ 10) (intToQ 100))) ∧
      ("Calculated extended list price for part " ++ partDisplay c5Item.partNumber)
        ∈ (validateAndCorrectParsedData defaultPrims c5Quote []).2) :=
  ⟨rfl, rfl, rfl, rfl, by decide,
   (reconciliation_fills_missing_extended_prices defaultPrims c5Quote [] 0 c5Item
     (intToQ 10) (intToQ 100) rfl).1 rfl rfl rfl⟩

/-- The summed extended-list total accumulated by the reconciliation
pass. -/
def reconListTotal (p : Prims) (res : ParsedQuote) : ℚ :=
  (res.line_items.map (correctItem p)).foldl (fun a o => qadd a o.cList) 0

/-- The summed extended-net total accumulated by the reconciliation
pass. -/
def reconNetTotal (p : Prims) (res : ParsedQuote) : ℚ :=
  (res.line_items.map (correctItem p)).foldl (fun a o => qadd a o.cNet) 0

/-- A line item carrying only an extended list price. -/
def c6ItemWithExtList (x : ℚ) : LineItem :=
  { partNumber := some "P1", quantity := Option.none,
    unitListPrice := Option.none, unitNetPrice := Option.none,
    extendedListPrice := some x, extendedNetPrice := Option.none }

/-- A parsed record whose only line item carries an extended list price of
exactly 0.00, with the header grand totals missing. -/
def c6ZeroQuote : ParsedQuote :=
  { line_items := [c6ItemWithExtList (intToQ 0)],
    quoteListPrice := Option.none, quoteNetPrice := Option.none }

/-- C6, counterexample: the claim says a missing header grand list total
is always set to the sum of the line items' extended list prices with a
warning; but the code guards the inference with Python truthiness of the
sum, so a sum of exactly 0.00 (here: one line item whose extended list
price is 0.00) leaves the header total unset and logs no inference
warning. -/
theorem grand_total_inference_skipped_on_zero_sum :
    c6ZeroQuote.quoteListPrice = Option.none ∧
    reconListTotal defaultPrims c6ZeroQuote = 0 ∧
    (validateAndCorrectParsedData defaultPrims c6ZeroQuote []).1.quoteListPrice
      = Option.none ∧
    ¬("Inferred quoteListPrice_t_c from line item totals."
        ∈ (validateAndCorrectParsedData defaultPrims c6ZeroQuote []).2) :=
  ⟨rfl, by decide, rfl, by decide⟩

/-- C6 (amended): after the line-item loop, a missing header grand list
(resp. net) total is set to `round(sum, 2)` of the line items' extended
prices with an inference warning, provided that sum is nonzero; a present
nonzero header total is checked against the sum with
`math.isclose(·, ·, abs_tol=0.01)` and a warning — extraction never fails
— is logged on mismatch. -/
theorem grand_total_inference_and_informational_check :
    ∀ (p : Prims) (res : ParsedQuote) (ws : List String),
      (res.quoteListPrice = Option.none → reconListTotal p res ≠ 0 →
        (validateAndCorrectParsedData p res ws).1.quoteListPrice =
          some (round2 (reconListTotal p res)) ∧
        "Inferred quoteListPrice_t_c from line item totals."
          ∈ (validateAndCorrectParsedData p res ws).2) ∧
      (res.quoteNetPrice = Option.none → reconNetTotal p res ≠ 0 →
        (validateAndCorrectParsedData p res ws).1.quoteNetPrice =
          some (round2 (reconNetTotal p res)) ∧
        "Inferred quoteNetPrice_t_c from line item totals."
          ∈ (validateAndCorrectParsedData p res ws).2) ∧
      (∀ h : ℚ, res.quoteListPrice = some h → h ≠ 0 →
        mathIsClose h (reconListTotal p res) (mkRat 1 100) = false →
        ("Line item list total " ++ formatFixed2 (reconListTotal p res)
            ++ " differs from header list total " ++ formatFixed2 h)
          ∈ (validateAndCorrectParsedData p res ws).2) ∧
      (∀ h : ℚ, res.quoteNetPrice = some h → h ≠ 0 →
        mathIsClose h (reconNetTotal p res) (mkRat 1 100) = false →
        ("Line item net total " ++ formatFixed2 (reconNetTotal p res)
            ++ " differs from header net total " ++ formatFixed2 h)
          ∈ (validateAndCorrectParsedData p res ws).2) := by
  intro p res ws
  refine ⟨?_, ?_, ?_, ?_⟩
  · intro hL hT
    simp only [validateAndCorrectParsedData, reconListTotal] at *
    rw [hL]
    simp only [if_pos hT]
    constructor
    · trivial
    · simp [List.mem_append]
  · intro hN hT
    simp only [validateAndCorrectParsedData, reconNetTotal] at *
    rw [hN]
    simp only [if_pos hT]
    constructor
    · trivial
    · simp [List.mem_append]
  · intro h hL hne hclose
    simp only [validateAndCorrectParsedData, reconListTotal] at *
    rw [hL]
    simp [hne, hclose, List.mem_append]
  · intro h hN hne hclose
    simp only [validateAndCorrectParsedData, reconNetTotal] at *
    rw [hN]
    simp [hne, hclose, List.mem_append]

/-- The C6 witness record for the inference branch: one line item with
extended list price 1000.00 and no header totals. -/
def c6InferQuote : ParsedQuote :=
  { line_items := [c6ItemWithExtList (intToQ 1000)],
    quoteListPrice := Option.none, quoteNetPrice := Option.none }

/-- The C6 witness record for the check branch: same line item with a
header list total of 5000.00. -/
def c6CheckQuote : ParsedQuote :=
  { line_items := [c6ItemWithExtList (intToQ 1000)],
    quoteListPrice := some (intToQ 5000), quoteNetPrice := Option.none }

/-- Witness for the amended C6: a nonzero sum of 1000.00 is inferred into
a missing header list total with the warning; and a present header total
of 5000.00 against the 1000.00 sum logs the mismatch warning. -/
theorem grand_total_inference_and_informational_check_witness :
    c6InferQuote.quoteListPrice = Option.none ∧
    reconListTotal defaultPrims c6InferQuote ≠ 0 ∧
    ((validateAndCorrectParsedData defaultPrims c6InferQuote []).1.quoteListPrice =
        some (round2 (reconListTotal defaultPrims c6InferQuote)) ∧
      "Inferred quoteListPrice_t_c from line item totals."
        ∈ (validateAndCorrectParsedData defaultPrims c6InferQuote []).2) ∧
    c6CheckQuote.quoteListPrice = some (intToQ 5000) ∧
    mathIsClose (intToQ 5000) (reconListTotal defaultPrims c6CheckQuote)
      (mkRat 1 100) = false ∧
    ("Line item list total "
        ++ formatFixed2 (reconListTotal defaultPrims c6CheckQuote)
        ++ " differs from header list total " ++ formatFixed2 (intToQ 5000))
      ∈ (validateAndCorrectParsedData defaultPrims c6CheckQuote []).2 :=
  ⟨rfl, by decide,
   (grand_total_inference_and_informational_check defaultPrims c6InferQuote []).1
     rfl (by decide),
   rfl, by decide,
   ((grand_total_inference_and_informational_check defaultPrims c6CheckQuote []).2).2.1
     (intToQ 5000) rfl (by decide) (by decide)⟩

theorem processExtendedField_name (p : Prims) (config : AppConfig)
    (apiData pdfData : List (String × Value)) (g : ExtendedField)
    (r : FieldResult)
    (h : processExtendedField p config apiData pdfData g = some r) :
    r.field_name = g.name := by
  simp only [processExtendedField] at h
  split_ifs at h
  obtain rfl := Option.some.inj h
  rfl

theorem processExtendedField_isSome (p : Prims) (config : AppConfig)
    (apiData pdfData : List (String × Value)) (g : ExtendedField) :
    (processExtendedField p config apiData pdfData g).isSome =
      !((normalizeScalar (dget apiData g.name)).isNone &&
        (normalizeScalar (dget pdfData g.name)).isNone) := by
  rcases hc : (normalizeScalar (dget apiData g.name)).isNone &&
      (normalizeScalar (dget pdfData g.name)).isNone <;>
    simp [processExtendedField, hc]

theorem countP_filterMap_nameNotIn (step : ExtendedField → Option FieldResult)
    (hkey : ∀ g r, step g = some r → r.field_name = g.name)
    (L : List ExtendedField) (nm : String) (hnm : ∀ g ∈ L, g.name ≠ nm) :
    (L.filterMap step).countP (fun r => r.field_name == nm) = 0 := by
  induction L with
  | nil => rfl
  | cons a L ih =>
    rw [List.filterMap_cons]
    cases hstep : step a with
    | none => exact ih fun g hg => hnm g (List.mem_cons_of_mem a hg)
    | some r =>
      rw [List.countP_cons]
      have hfalse : (r.field_name == nm) = false := by
        have := hnm a (List.mem_cons_self a L)
        rw [hkey a r hstep]
        simp [this]
      rw [hfalse]
      simp [ih fun g hg => hnm g (List.mem_cons_of_mem a hg)]

theorem countP_filterMap_uniqueName (step : ExtendedField → Option FieldResult)
    (hkey : ∀ g r, step g = some r → r.field_name = g.name)
    (L : List ExtendedField)
    (hnodup : (L.map (fun g => g.name)).Nodup) (f : ExtendedField)
    (hf : f ∈ L) :
    (L.filterMap step).countP (fun r => r.field_name == f.name) =
      if (step f).isSome then 1 else 0 := by
  induction L with
  | nil => cases hf
  | cons a L ih =>
    rw [List.filterMap_cons]
    rw [List.map_cons] at hnodup
    have hhead := (List.nodup_cons.1 hnodup).1
    have htail := (List.nodup_cons.1 hnodup).2
    rcases List.mem_cons.1 hf with rfl | hfL
    · have hout : ∀ g ∈ L, g.name ≠ f.name := by
        intro g hg hEq
        exact hhead (hEq ▸ List.mem_map_of_mem _ hg)
      cases hstep : step f with
      | none =>
        simp [hstep, countP_filterMap_nameNotIn step hkey L f.name hout]
      | some r =>
        rw [List.countP_cons, hkey f r hstep]
        simp [hstep, countP_filterMap_nameNotIn step hkey L f.name hout]
    · have hne : a.name ≠ f.name := by
        intro hEq
        exact hhead (hEq ▸ List.mem_map_of_mem _ hfL)
      have ih' := ih htail hfL
      cases hstep : step a with
      | none => exact ih'
      | some r =>
        rw [List.countP_cons]
        have hfalse : (r.field_name == f.name) = false := by
          rw [hkey a r hstep]
          simp [hne]
        rw [hfalse]
        simp [ih']

theorem extendedFieldsNamesNodup :
    (EXTENDED_FIELDS.map (fun g => g.name)).Nodup := by
  decide

/-- C10: for every entry of the `EXTENDED_FIELDS` catalog, the extended
loop of `validate_quote` emits no `FieldResult` named after the entry when
both unwrapped sides are `None`, and exactly one when at least one side is
non-`None` — for every pair of records, every configuration and every
instantiation of the external primitives. -/
theorem extendedResults_emission_per_entry :
    ∀ (p : Prims) (config : AppConfig)
      (apiData pdfData : List (String × Value)) (f : ExtendedField),
      f ∈ EXTENDED_FIELDS →
      (((normalizeScalar (dget apiData f.name)).isNone &&
          (normalizeScalar (dget pdfData f.name)).isNone) = true →
        (extendedResults p config apiData pdfData).countP
          (fun r => r.field_name == f.name) = 0) ∧
      (((normalizeScalar (dget apiData f.name)).isNone &&
          (normalizeScalar (dget pdfData f.name)).isNone) = false →
        (extendedResults p config apiData pdfData).countP
          (fun r => r.field_name == f.name) = 1) := by
  intro p config apiData pdfData f hf
  have hcount := countP_filterMap_uniqueName
    (processExtendedField p config apiData pdfData)
    (processExtendedField_name p config apiData pdfData)
    EXTENDED_FIELDS extendedFieldsNamesNodup f hf
  have hsome := processExtendedField_isSome p config apiData pdfData f
  constructor
  · intro hnone
    rw [extendedResults, hcount, hsome, hnone]
    rfl
  · intro hsomeSide
    rw [extendedResults, hcount, hsome, hsomeSide]
    rfl

/-- Witness for C10: the first catalog entry `pVRSMLevelFlag_t_c`
contributes no result on two empty records, and exactly one result when
the authoritative record carries a value for it. -/
theorem extendedResults_emission_per_entry_witness :
    ({ name := "pVRSMLevelFlag_t_c", section_ := "Header", kind := "bool" }
        : ExtendedField) ∈ EXTENDED_FIELDS ∧
    (extendedResults defaultPrims {} [] []).countP
      (fun r => r.field_name == "pVRSMLevelFlag_t_c") = 0 ∧
    (extendedResults defaultPrims {}
      [("pVRSMLevelFlag_t_c", Value.bool true)] []).countP
      (fun r => r.field_name == "pVRSMLevelFlag_t_c") = 1 :=
  ⟨by decide,
   (extendedResults_emission_per_entry defaultPrims {} [] []
     { name := "pVRSMLevelFlag_t_c", section_ := "Header", kind := "bool" }
     (by decide)).1 rfl,
   (extendedResults_emission_per_entry defaultPrims {}
     [("pVRSMLevelFlag_t_c", Value.bool true)] []
     { name := "pVRSMLevelFlag_t_c", section_ := "Header", kind := "bool" }
     (by decide)).2 rfl⟩

theorem listPrefix_trans :
    ∀ (a b c : List Char), listPrefix a b = true → listPrefix b c = true →
      listPrefix a c = true := by
  intro a
  induction a with
  | nil => intro b c _ _; rfl
  | cons x xs ih =>
    intro b c hab hbc
    cases b with
    | nil => simp [listPrefix] at hab
    | cons y ys =>
      cases c with
      | nil => simp [listPrefix] at hbc
      | cons z zs =>
        simp only [listPrefix, Bool.and_eq_true] at hab hbc ⊢
        obtain ⟨hxy, hxys⟩ := hab
        obtain ⟨hyz, hyzs⟩ := hbc
        exact ⟨by rw [decide_eq_true_eq] at hxy hyz ⊢; exact hxy.trans hyz,
          ih ys zs hxys hyzs⟩

theorem isSubstrL_of_prefix (n1 n2 : List Char)
    (hp : listPrefix n1 n2 = true) :
    ∀ h : List Char, isSubstrL n2 h = true → isSubstrL n1 h = true := by
  intro h
  induction h with
  | nil =>
    intro hs
    simp only [isSubstrL] at hs ⊢
    cases n2 with
    | nil => cases n1 with
      | nil => rfl
      | cons _ _ => simp [listPrefix] at hp
    | cons _ _ => simp [listPrefix] at hs
  | cons c t ih =>
    intro hs
    simp only [isSubstrL, Bool.or_eq_true] at hs ⊢
    rcases hs with hs | hs
    · exact Or.inl (listPrefix_trans n1 n2 (c :: t) hp hs)
    · exact Or.inr (ih hs)

theorem substr_of_extDot (s : String) (h : substr "ext." s = true) :
    substr "ext" s = true :=
  isSubstrL_of_prefix "ext".data "ext.".data (by decide) s.data h

theorem substr_of_extended (s : String) (h : substr "extended" s = true) :
    substr "ext" s = true :=
  isSubstrL_of_prefix "ext".data "extended".data (by decide) s.data h

theorem extFirstPassCond_label (lowered kw : String)
    (h : extFirstPassCond lowered kw = true) :
    (substr "ext" lowered = true ∨ substr "extended" lowered = true) ∧
      substr kw lowered = true := by
  simp only [extFirstPassCond, Bool.or_eq_true, Bool.and_eq_true] at h
  rcases h with ⟨⟨hext, hkw⟩, _⟩ | ⟨⟨_, hext⟩, hkw⟩
  · exact ⟨hext, hkw⟩
  · rcases hext with he | he
    · exact ⟨Or.inl he, hkw⟩
    · exact ⟨Or.inl (substr_of_extDot lowered he), hkw⟩

theorem extSecondPassCond_label (lowered kw : String)
    (h : extSecondPassCond lowered kw = true) :
    (substr "ext" lowered = true ∨ substr "extended" lowered = true) ∧
      substr kw lowered = true := by
  simp only [extSecondPassCond, Bool.or_eq_true, Bool.and_eq_true] at h
  rcases h with ⟨hext, hkw⟩ | ⟨⟨_, hext⟩, hkw⟩ <;> exact ⟨hext, hkw⟩

theorem pass1Step_ext_list (m : ColMap) (idx : ℕ) (label : String) (i : ℕ)
    (h : (pass1Step m idx label).ext_list = some i) :
    m.ext_list = some i ∨
      (i = idx ∧ extFirstPassCond (pyLower label) "list" = true) := by
  simp only [pass1Step] at h
  split_ifs at h with h1 h2 h3 <;>
    simp_all [Bool.and_eq_true]

theorem pass1Step_ext_net (m : ColMap) (idx : ℕ) (label : String) (i : ℕ)
    (h : (pass1Step m idx label).ext_net = some i) :
    m.ext_net = some i ∨
      (i = idx ∧ extFirstPassCond (pyLower label) "net" = true) := by
  simp only [pass1Step] at h
  split_ifs at h with h1 h2 h3 <;>
    simp_all [Bool.and_eq_true]

theorem pass1Step_unit_list (m : ColMap) (idx : ℕ) (label : String) :
    (pass1Step m idx label).unit_list = m.unit_list := by
  simp only [pass1Step]
  split_ifs <;> rfl

theorem pass1Step_unit_net (m : ColMap) (idx : ℕ) (label : String) :
    (pass1Step m idx label).unit_net = m.unit_net := by
  simp only [pass1Step]
  split_ifs <;> rfl

theorem pass1_ext_list (labels : List String) :
    ∀ (m : ColMap) (idx i : ℕ), (pass1 m idx labels).ext_list = some i →
      m.ext_list = some i ∨
        ∃ j, j < labels.length ∧ i = idx + j ∧
          extFirstPassCond (pyLower (labels.getD j "")) "list" = true := by
  induction labels with
  | nil => intro m idx i h; exact Or.inl h
  | cons lab rest ih =>
    intro m idx i h
    rcases ih (pass1Step m idx lab) (idx + 1) i h with h' | ⟨j, hj, hij, hc⟩
    · rcases pass1Step_ext_list m idx lab i h' with h'' | ⟨rfl, hc⟩
      · exact Or.inl h''
      · exact Or.inr ⟨0, Nat.succ_pos _, by omega, hc⟩
    · exact Or.inr ⟨j + 1, Nat.succ_lt_succ hj, by omega, hc⟩

theorem pass1_ext_net (labels : List String) :
    ∀ (m : ColMap) (idx i : ℕ), (pass1 m idx labels).ext_net = some i →
      m.ext_net = some i ∨
        ∃ j, j < labels.length ∧ i = idx + j ∧
          extFirstPassCond (pyLower (labels.getD j "")) "net" = true := by
  induction labels with
  | nil => intro m idx i h; exact Or.inl h
  | cons lab rest ih =>
    intro m idx i h
    rcases ih (pass1Step m idx lab) (idx + 1) i h with h' | ⟨j, hj, hij, hc⟩
    · rcases pass1Step_ext_net m idx lab i h' with h'' | ⟨rfl, hc⟩
      · exact Or.inl h''
      · exact Or.inr ⟨0, Nat.succ_pos _, by omega, hc⟩
    · exact Or.inr ⟨j + 1, Nat.succ_lt_succ hj, by omega, hc⟩

theorem pass1_unit_list (labels : List String) :
    ∀ (m : ColMap) (idx : ℕ), (pass1 m idx labels).unit_list = m.unit_list := by
  induction labels with
  | nil => intro m idx; rfl
  | cons lab rest ih =>
    intro m idx
    rw [pass1, ih, pass1Step_unit_list]

theorem pass1_unit_net (labels : List String) :
    ∀ (m : ColMap) (idx : ℕ), (pass1 m idx labels).unit_net = m.unit_net := by
  induction labels with
  | nil => intro m idx; rfl
  | cons lab rest ih =>
    intro m idx
    rw [pass1, ih, pass1Step_unit_net]

theorem pass2Step_fields (m : ColMap) (idx : ℕ) (label : String) :
    ((pass2Step m idx label).ext_list = m.ext_list ∨
      ((pass2Step m idx label).ext_list = some idx ∧
        extSecondPassCond (pyLower label) "list" = true)) ∧
    ((pass2Step m idx label).ext_net = m.ext_net ∨
      ((pass2Step m idx label).ext_net = some idx ∧
        extSecondPassCond (pyLower label) "net" = true)) ∧
    ((pass2Step m idx label).unit_list = m.unit_list ∨
      ((pass2Step m idx label).unit_list = some idx ∧
        substr "ext" (pyLower label) = false ∧
        substr "extended" (pyLower label) = false)) ∧
    ((pass2Step m idx label).unit_net = m.unit_net ∨
      ((pass2Step m idx label).unit_net = some idx ∧
        substr "ext" (pyLower label) = false ∧
        substr "extended" (pyLower label) = false)) := by
  simp only [pass2Step]
  by_cases h0 : claimedIdx m idx = true
  · rw [if_pos h0]
    exact ⟨Or.inl rfl, Or.inl rfl, Or.inl rfl, Or.inl rfl⟩
  rw [if_neg h0]
  by_cases h1 : (m.part.isNone && substr "part" (pyLower label)
      && substr "number" (pyLower label)) = true
  · rw [if_pos h1]
    exact ⟨Or.inl rfl, Or.inl rfl, Or.inl rfl, Or.inl rfl⟩
  rw [if_neg h1]
  by_cases h2 : (m.description.isNone && (substr "description" (pyLower label)
      || substr "product" (pyLower label))) = true
  · rw [if_pos h2]
    exact ⟨Or.inl rfl, Or.inl rfl, Or.inl rfl, Or.inl rfl⟩
  rw [if_neg h2]
  by_cases h3 : (m.quantity.isNone && (substr "qty" (pyLower label)
      || substr "quantity" (pyLower label))) = true
  · rw [if_pos h3]
    exact ⟨Or.inl rfl, Or.inl rfl, Or.inl rfl, Or.inl rfl⟩
  rw [if_neg h3]
  by_cases h4 : m.unit_list.isNone = true
  · rw [if_pos h4]
    by_cases h4a : unitCandidateCond (pyLower label) "list" = true
    · rw [if_pos h4a]
      by_cases h4b : (!substr "ext" (pyLower label)
          && !substr "extended" (pyLower label)) = true
      · rw [if_pos h4b]
        simp only [Bool.and_eq_true, Bool.not_eq_true'] at h4b
        exact ⟨Or.inl rfl, Or.inl rfl, Or.inr ⟨rfl, h4b.1, h4b.2⟩, Or.inl rfl⟩
      · rw [if_neg h4b]
        exact ⟨Or.inl rfl, Or.inl rfl, Or.inl rfl, Or.inl rfl⟩
    · rw [if_neg h4a]
      exact ⟨Or.inl rfl, Or.inl rfl, Or.inl rfl, Or.inl rfl⟩
  rw [if_neg h4]
  by_cases h5 : m.unit_net.isNone = true
  · rw [if_pos h5]
    by_cases h5a : unitCandidateCond (pyLower label) "net" = true
    · rw [if_pos h5a]
      by_cases h5b : (!substr "ext" (pyLower label)
          && !substr "extended" (pyLower label)) = true
      · rw [if_pos h5b]
        simp only [Bool.and_eq_true, Bool.not_eq_true'] at h5b
        exact ⟨Or.inl rfl, Or.inl rfl, Or.inl rfl, Or.inr ⟨rfl, h5b.1, h5b.2⟩⟩
      · rw [if_neg h5b]
        exact ⟨Or.inl rfl, Or.inl rfl, Or.inl rfl, Or.inl rfl⟩
    · rw [if_neg h5a]
      exact ⟨Or.inl rfl, Or.inl rfl, Or.inl rfl, Or.inl rfl⟩
  rw [if_neg h5]
  by_cases h6 : m.ext_list.isNone = true
  · rw [if_pos h6]
    by_cases h6a : extSecondPassCond (pyLower label) "list" = true
    · rw [if_pos h6a]
      exact ⟨Or.inr ⟨rfl, h6a⟩, Or.inl rfl, Or.inl rfl, Or.inl rfl⟩
    · rw [if_neg h6a]
      exact ⟨Or.inl rfl, Or.inl rfl, Or.inl rfl, Or.inl rfl⟩
  rw [if_neg h6]
  by_cases h7 : m.ext_net.isNone = true
  · rw [if_pos h7]
    by_cases h7a : extSecondPassCond (pyLower label) "net" = true
    · rw [if_pos h7a]
      exact ⟨Or.inl rfl, Or.inr ⟨rfl, h7a⟩, Or.inl rfl, Or.inl rfl⟩
    · rw [if_neg h7a]
      exact ⟨Or.inl rfl, Or.inl rfl, Or.inl rfl, Or.inl rfl⟩
  rw [if_neg h7]
  by_cases h8 : (m.discount_percent.isNone && substr "%" (pyLower label)
      && substr "discount" (pyLower label)) = true
  · rw [if_pos h8]
    exact ⟨Or.inl rfl, Or.inl rfl, Or.inl rfl, Or.inl rfl⟩
  rw [if_neg h8]
  by_cases h9 : (m.discount_amount.isNone && substr "discount" (pyLower label)
      && !substr "%" (pyLower label)) = true
  · rw [if_pos h9]
    exact ⟨Or.inl rfl, Or.inl rfl, Or.inl rfl, Or.inl rfl⟩
  rw [if_neg h9]
  by_cases h10 : (m.line_total.isNone && substr "line" (pyLower label)
      && substr "total" (pyLower label)) = true
  · rw [if_pos h10]
    exact ⟨Or.inl rfl, Or.inl rfl, Or.inl rfl, Or.inl rfl⟩
  rw [if_neg h10]
  exact ⟨Or.inl rfl, Or.inl rfl, Or.inl rfl, Or.inl rfl⟩

theorem pass2Step_ext_list (m : ColMap) (idx : ℕ) (label : String) (i : ℕ)
    (h : (pass2Step m idx label).ext_list = some i) :
    m.ext_list = some i ∨
      (i = idx ∧ extSecondPassCond (pyLower label) "list" = true) := by
  rcases (pass2Step_fields m idx label).1 with he | ⟨he, hc⟩
  · exact Or.inl (he ▸ h)
  · exact Or.inr ⟨(Option.some.inj (he.symm.trans h)).symm, hc⟩

theorem pass2Step_ext_net (m : ColMap) (idx : ℕ) (label : String) (i : ℕ)
    (h : (pass2Step m idx label).ext_net = some i) :
    m.ext_net = some i ∨
      (i = idx ∧ extSecondPassCond (pyLower label) "net" = true) := by
  rcases (pass2Step_fields m idx label).2.1 with he | ⟨he, hc⟩
  · exact Or.inl (he ▸ h)
  · exact Or.inr ⟨(Option.some.inj (he.symm.trans h)).symm, hc⟩

theorem pass2Step_unit_list (m : ColMap) (idx : ℕ) (label : String) (i : ℕ)
    (h : (pass2Step m idx label).unit_list = some i) :
    m.unit_list = some i ∨
      (i = idx ∧ substr "ext" (pyLower label) = false ∧
        substr "extended" (pyLower label) = false) := by
  rcases (pass2Step_fields m idx label).2.2.1 with he | ⟨he, h1, h2⟩
  · exact Or.inl (he ▸ h)
  · exact Or.inr ⟨(Option.some.inj (he.symm.trans h)).symm, h1, h2⟩

theorem pass2Step_unit_net (m : ColMap) (idx : ℕ) (label : String) (i : ℕ)
    (h : (pass2Step m idx label).unit_net = some i) :
    m.unit_net = some i ∨
      (i = idx ∧ substr "ext" (pyLower label) = false ∧
        substr "extended" (pyLower label) = false) := by
  rcases (pass2Step_fields m idx label).2.2.2 with he | ⟨he, h1, h2⟩
  · exact Or.inl (he ▸ h)
  · exact Or.inr ⟨(Option.some.inj (he.symm.trans h)).symm, h1, h2⟩

theorem pass2_ext_list (labels : List String) :
    ∀ (m : ColMap) (idx i : ℕ), (pass2 m idx labels).ext_list = some i →
      m.ext_list = some i ∨
        ∃ j, j < labels.length ∧ i = idx + j ∧
          extSecondPassCond (pyLower (labels.getD j "")) "list" = true := by
  induction labels with
  | nil => intro m idx i h; exact Or.inl h
  | cons lab rest ih =>
    intro m idx i h
    rcases ih (pass2Step m idx lab) (idx + 1) i h with h2 | ⟨j, hj, hij, hc⟩
    · rcases pass2Step_ext_list m idx lab i h2 with h3 | ⟨rfl, hc⟩
      · exact Or.inl h3
      · exact Or.inr ⟨0, Nat.succ_pos _, by omega, hc⟩
    · exact Or.inr ⟨j + 1, Nat.succ_lt_succ hj, by omega, hc⟩

theorem pass2_ext_net (labels : List String) :
    ∀ (m : ColMap) (idx i : ℕ), (pass2 m idx labels).ext_net = some i →
      m.ext_net = some i ∨
        ∃ j, j < labels.length ∧ i = idx + j ∧
          extSecondPassCond (pyLower (labels.getD j "")) "net" = true := by
  induction labels with
  | nil => intro m idx i h; exact Or.inl h
  | cons lab rest ih =>
    intro m idx i h
    rcases ih (pass2Step m idx lab) (idx + 1) i h with h2 | ⟨j, hj, hij, hc⟩
    · rcases pass2Step_ext_net m idx lab i h2 with h3 | ⟨rfl, hc⟩
      · exact Or.inl h3
      · exact Or.inr ⟨0, Nat.succ_pos _, by omega, hc⟩
    · exact Or.inr ⟨j + 1, Nat.succ_lt_succ hj, by omega, hc⟩

theorem pass2_unit_list (labels : List String) :
    ∀ (m : ColMap) (idx i : ℕ), (pass2 m idx labels).unit_list = some i →
      m.unit_list = some i ∨
        ∃ j, j < labels.length ∧ i = idx + j ∧
          substr "ext" (pyLower (labels.getD j "")) = false ∧
          substr "extended" (pyLower (labels.getD j "")) = false := by
  induction labels with
  | nil => intro m idx i h; exact Or.inl h
  | cons lab rest ih =>
    intro m idx i h
    rcases ih (pass2Step m idx lab) (idx + 1) i h with h2 | ⟨j, hj, hij, hc⟩
    · rcases pass2Step_unit_list m idx lab i h2 with h3 | ⟨rfl, hc1, hc2⟩
      · exact Or.inl h3
      · exact Or.inr ⟨0, Nat.succ_pos _, by omega, hc1, hc2⟩
    · exact Or.inr ⟨j + 1, Nat.succ_lt_succ hj, by omega, hc⟩

theorem pass2_unit_net (labels : List String) :
    ∀ (m : ColMap) (idx i : ℕ), (pass2 m idx labels).unit_net = some i →
      m.unit_net = some i ∨
        ∃ j, j < labels.length ∧ i = idx + j ∧
          substr "ext" (pyLower (labels.getD j "")) = false ∧
          substr "extended" (pyLower (labels.getD j "")) = false := by
  induction labels with
  | nil => intro m idx i h; exact Or.inl h
  | cons lab rest ih =>
    intro m idx i h
    rcases ih (pass2Step m idx lab) (idx + 1) i h with h2 | ⟨j, hj, hij, hc⟩
    · rcases pass2Step_unit_net m idx lab i h2 with h3 | ⟨rfl, hc1, hc2⟩
      · exact Or.inl h3
      · exact Or.inr ⟨0, Nat.succ_pos _, by omega, hc1, hc2⟩
    · exact Or.inr ⟨j + 1, Nat.succ_lt_succ hj, by omega, hc⟩

theorem fallbackFind_spec (m : ColMap) (kw : String) :
    ∀ (labels : List String) (idx i : ℕ),
      fallbackFind m kw idx labels = some i →
      ∃ j, j < labels.length ∧ i = idx + j ∧
        substr "ext" (pyLower (labels.getD j "")) = false ∧
        substr "extended" (pyLower (labels.getD j "")) = false := by
  intro labels
  induction labels with
  | nil => intro idx i h; exact absurd h (by simp [fallbackFind])
  | cons lab rest ih =>
    intro idx i h
    simp only [fallbackFind] at h
    split_ifs at h with hc
    · simp only [Bool.and_eq_true, Bool.not_eq_true'] at hc
      have hidx : i = idx := (Option.some.inj h).symm
      exact ⟨0, Nat.succ_pos _, by omega, hc.1.2, hc.2⟩
    · rcases ih (idx + 1) i h with ⟨j, hj, hij, he1, he2⟩
      exact ⟨j + 1, Nat.succ_lt_succ hj, by omega, he1, he2⟩

theorem applyUnitListFallback_ext_list (L : List String) (m : ColMap) :
    (applyUnitListFallback L m).ext_list = m.ext_list := by
  unfold applyUnitListFallback
  split_ifs with h
  · cases hf : fallbackFind m "list" 0 L <;> rfl
  · rfl

theorem applyUnitListFallback_ext_net (L : List String) (m : ColMap) :
    (applyUnitListFallback L m).ext_net = m.ext_net := by
  unfold applyUnitListFallback
  split_ifs with h
  · cases hf : fallbackFind m "list" 0 L <;> rfl
  · rfl

theorem applyUnitListFallback_unit_net (L : List String) (m : ColMap) :
    (applyUnitListFallback L m).unit_net = m.unit_net := by
  unfold applyUnitListFallback
  split_ifs with h
  · cases hf : fallbackFind m "list" 0 L <;> rfl
  · rfl

theorem applyUnitNetFallback_ext_list (L : List String) (m : ColMap) :
    (applyUnitNetFallback L m).ext_list = m.ext_list := by
  unfold applyUnitNetFallback
  split_ifs with h
  · cases hf : fallbackFind m "net" 0 L <;> rfl
  · rfl

theorem applyUnitNetFallback_ext_net (L : List String) (m : ColMap) :
    (applyUnitNetFallback L m).ext_net = m.ext_net := by
  unfold applyUnitNetFallback
  split_ifs with h
  · cases hf : fallbackFind m "net" 0 L <;> rfl
  · rfl

theorem applyUnitNetFallback_unit_list (L : List String) (m : ColMap) :
    (applyUnitNetFallback L m).unit_list = m.unit_list := by
  unfold applyUnitNetFallback
  split_ifs with h
  · cases hf : fallbackFind m "net" 0 L <;> rfl
  · rfl

theorem applyUnitListFallback_unit_list (L : List String) (m : ColMap) (i : ℕ)
    (h : (applyUnitListFallback L m).unit_list = some i) :
    m.unit_list = some i ∨ fallbackFind m "list" 0 L = some i := by
  unfold applyUnitListFallback at h
  split_ifs at h with hc
  · revert h
    cases hf : fallbackFind m "list" 0 L with
    | none => intro h; exact Or.inl h
    | some j => intro h; exact Or.inr h
  · exact Or.inl h

theorem applyUnitNetFallback_unit_net (L : List String) (m : ColMap) (i : ℕ)
    (h : (applyUnitNetFallback L m).unit_net = some i) :
    m.unit_net = some i ∨ fallbackFind m "net" 0 L = some i := by
  unfold applyUnitNetFallback at h
  split_ifs at h with hc
  · revert h
    cases hf : fallbackFind m "net" 0 L with
    | none => intro h; exact Or.inl h
    | some j => intro h; exact Or.inr h
  · exact Or.inl h

/-- C8, counterexample: a header row whose last column label contains
`unit` together with `ext` and `list`.  The first pass skips it (the
`unit` exclusion), but once `unit_list` and `unit_net` are already bound,
the second pass binds `ext_list` to it — its rule carries no `unit`
exclusion — so an `ext_list` column whose label contains `unit` is bound,
contradicting the claim that the exclusion holds in both binding passes. -/
theorem buildColumnMap_ext_list_binds_unit_label :
    (buildColumnMap
      ["Part Number", "Unit List Price", "Unit Net Price", "Unit Ext List"]).ext_list
      = some 3 ∧
    substr "unit" (pyLower "Unit Ext List") = true :=
  ⟨by decide, by decide⟩

/-- C8 (amended): every column bound as `ext_list` (resp. `ext_net`) has a
label containing `ext` or `extended` together with `list` (resp. `net`) —
the additional no-`unit` exclusion holds only in the first pass's primary
rule — and a column bound as a unit-price column (`unit_list`/`unit_net`,
in either pass or the fallback) never has `ext` or `extended` in its
label. -/
theorem buildColumnMap_role_label_invariants :
    ∀ (labels : List String) (i : ℕ),
      ((buildColumnMap labels).ext_list = some i →
        (substr "ext" (pyLower (labels.getD i "")) = true ∨
          substr "extended" (pyLower (labels.getD i "")) = true) ∧
        substr "list" (pyLower (labels.getD i "")) = true) ∧
      ((buildColumnMap labels).ext_net = some i →
        (substr "ext" (pyLower (labels.getD i "")) = true ∨
          substr "extended" (pyLower (labels.getD i "")) = true) ∧
        substr "net" (pyLower (labels.getD i "")) = true) ∧
      ((buildColumnMap labels).unit_list = some i →
        substr "ext" (pyLower (labels.getD i "")) = false ∧
        substr "extended" (pyLower (labels.getD i "")) = false) ∧
      ((buildColumnMap labels).unit_net = some i →
        substr "ext" (pyLower (labels.getD i "")) = false ∧
        substr "extended" (pyLower (labels.getD i "")) = false) := by
  intro labels i
  refine ⟨?_, ?_, ?_, ?_⟩
  · intro h
    rw [buildColumnMap, applyUnitNetFallback_ext_list,
      applyUnitListFallback_ext_list] at h
    rcases pass2_ext_list labels (pass1 {} 0 labels) 0 i h with h1 | ⟨j, hj, hij, hc⟩
    · rcases pass1_ext_list labels {} 0 i h1 with h0 | ⟨j, hj, hij, hc⟩
      · exact absurd h0 (by simp)
      · obtain rfl : i = j := by omega
        exact extFirstPassCond_label _ _ hc
    · obtain rfl : i = j := by omega
      exact extSecondPassCond_label _ _ hc
  · intro h
    rw [buildColumnMap, applyUnitNetFallback_ext_net,
      applyUnitListFallback_ext_net] at h
    rcases pass2_ext_net labels (pass1 {} 0 labels) 0 i h with h1 | ⟨j, hj, hij, hc⟩
    · rcases pass1_ext_net labels {} 0 i h1 with h0 | ⟨j, hj, hij, hc⟩
      · exact absurd h0 (by simp)
      · obtain rfl : i = j := by omega
        exact extFirstPassCond_label _ _ hc
    · obtain rfl : i = j := by omega
      exact extSecondPassCond_label _ _ hc
  · intro h
    rw [buildColumnMap, applyUnitNetFallback_unit_list] at h
    rcases applyUnitListFallback_unit_list labels _ i h with h1 | hf
    · rcases pass2_unit_list labels (pass1 {} 0 labels) 0 i h1 with
        h2 | ⟨j, hj, hij, hc1, hc2⟩
      · rw [pass1_unit_list labels {} 0] at h2
        exact absurd h2 (by simp)
      · obtain rfl : i = j := by omega
        exact ⟨hc1, hc2⟩
    · rcases fallbackFind_spec _ "list" labels 0 i hf with ⟨j, hj, hij, he1, he2⟩
      obtain rfl : i = j := by omega
      exact ⟨he1, he2⟩
  · intro h
    rw [buildColumnMap] at h
    rcases applyUnitNetFallback_unit_net labels _ i h with h1 | hf
    · rw [applyUnitListFallback_unit_net] at h1
      rcases pass2_unit_net labels (pass1 {} 0 labels) 0 i h1 with
        h2 | ⟨j, hj, hij, hc1, hc2⟩
      · rw [pass1_unit_net labels {} 0] at h2
        exact absurd h2 (by simp)
      · obtain rfl : i = j := by omega
        exact ⟨hc1, hc2⟩
    · rcases fallbackFind_spec _ "net" labels 0 i hf with ⟨j, hj, hij, he1, he2⟩
      obtain rfl : i = j := by omega
      exact ⟨he1, he2⟩

/-- The C8 witness header row. -/
def c8Labels : List String :=
  ["Part Number", "Unit List Price", "Unit Net Price", "Extended List Price"]

/-- Witness for the amended C8: on a well-formed header row the theorem
applies — the bound `ext_list` column's label contains `ext`-and-`list`,
and the bound `unit_list` column's label is `ext`-free. -/
theorem buildColumnMap_role_label_invariants_witness :
    (buildColumnMap c8Labels).ext_list = some 3 ∧
    ((substr "ext" (pyLower (c8Labels.getD 3 "")) = true ∨
      substr "extended" (pyLower (c8Labels.getD 3 "")) = true) ∧
      substr "list" (pyLower (c8Labels.getD 3 "")) = true) ∧
    (buildColumnMap c8Labels).unit_list = some 1 ∧
    (substr "ext" (pyLower (c8Labels.getD 1 "")) = false ∧
      substr "extended" (pyLower (c8Labels.getD 1 "")) = false) :=
  ⟨by decide,
   (buildColumnMap_role_label_invariants c8Labels 3).1 (by decide),
   by decide,
   (buildColumnMap_role_label_invariants c8Labels 1).2.2.1 (by decide)⟩
